import Mathlib

/-!  Verification of the adaptive learning-path pipeline
     (backend/agents + app.py of the personalized-tutor repository).

The Python sources are shallowly embedded: pure computations become Lean
functions, the generative-text gateway becomes an explicit oracle argument
(`none` models a transport error / unparsable response, `some` a parsed
response), the document store becomes an explicit list of documents, and
Python code that can raise is modelled with `Option` (`none` = the call
raises).  Python `int` is `Int`, Python numbers that are averaged are `ℚ`,
Python strings are `String` with character-list helpers that mirror
`str.lower`, `str.strip`, `str.split` and the substring test `in`
(ASCII-faithful, which covers every string the repository manipulates).
Random UUIDs are not observed by any property and are embedded as `""`. -/

/-! ## Python string primitives -/

/-- Python `a.startswith`-style prefix test on character lists
(helper for the substring test below). -/
def charsPrefix : List Char → List Char → Bool
  | [], _ => true
  | _ :: _, [] => false
  | a :: as, b :: bs => a == b && charsPrefix as bs

/-- Substring occurrence on character lists. -/
def charsInfix (needle : List Char) : List Char → Bool
  | [] => needle.isEmpty
  | h :: t => charsPrefix needle (h :: t) || charsInfix needle t

/-- Python `needle in hay` on strings: substring containment
(the empty needle is contained in everything, as in Python). -/
def pyInStr (needle hay : String) : Bool := charsInfix needle.data hay.data

/-- Python `str.lower()` (ASCII-faithful). -/
def pyToLower (s : String) : String := String.mk (s.data.map Char.toLower)

/-- Python `str.strip()`: remove leading and trailing whitespace. -/
def pyStrip (s : String) : String :=
  String.mk (((s.data.dropWhile Char.isWhitespace).reverse.dropWhile Char.isWhitespace).reverse)

/-- Python `str.split()` with no argument: split on whitespace runs,
dropping empty pieces. -/
def pySplitWords (s : String) : List String :=
  ((s.data.splitOnP (fun c => c.isWhitespace)).filter (fun w => !w.isEmpty)).map String.mk

/-- Decimal value of a digit list (helper for `parsePyInt`). -/
def digitsVal (ds : List Char) : Nat :=
  ds.foldl (fun acc c => acc * 10 + (c.toNat - '0'.toNat)) 0

/-- Modelled from Python's built-in `int(str)` as the Quiz pipeline uses it:
optional surrounding whitespace, an optional sign, then decimal digits;
anything else raises `ValueError`, i.e. yields `none`. -/
def parsePyInt (s : String) : Option Int :=
  let t := ((s.data.dropWhile Char.isWhitespace).reverse.dropWhile Char.isWhitespace).reverse
  match t with
  | [] => none
  | c :: rest =>
    let signed : Int × List Char :=
      if c = '-' then (-1, rest) else if c = '+' then (1, rest) else (1, c :: rest)
    if signed.2 ≠ [] ∧ signed.2.all Char.isDigit then
      some (signed.1 * (digitsVal signed.2 : Int))
    else none

/-! ## Data model (`agents/models.py`) -/

/-- `QuizQuestion` of `agents/models.py`.  The random `uuid4` ids are embedded
as `""`: no claim observes them. -/
structure QuizQuestion where
  id : String
  question : String
  options : List String
  correct_answer : String
  topic : String
  difficulty_level : Int
  resource_id : String
deriving DecidableEq

/-- `LearnerProfile` of `agents/models.py` (without the unobserved
`created_at` timestamp). -/
structure LearnerProfile where
  id : String
  name : String
  learning_style : String
  knowledge_level : Int
  subject : String
  weak_areas : List String
deriving DecidableEq

/-- `LearningContent` of `agents/models.py`. -/
structure LearningContent where
  id : String
  title : String
  type : String
  content : String
  summary : String
  difficulty_level : Int
  learning_style : String
  topic : String
  estimated_duration : Int
  prerequisites : List String
  learning_objectives : List String
deriving DecidableEq

/-! ## Quiz Synthesizer (`agents/content_generator.py`) -/

/-- The JSON value found under a candidate question's `options` key:
either a list (of option strings) or some non-list value. -/
inductive PyOptionsVal where
  | strs (xs : List String)
  | nonList
deriving DecidableEq

/-- One candidate question as parsed from the model's JSON: each required
field may be missing (`none`). -/
structure RawQuestion where
  question : Option String
  options : Option PyOptionsVal
  correct_answer : Option String
  topic : Option String
deriving DecidableEq

/-- Per-candidate validation of `generate_quiz_questions` (content_generator.py
lines 128-157): require the `question`, `options`, `correct_answer` fields,
require `options` to be a list of length ≥ 4 (truncated to 4), and replace a
correct answer that is not among the kept options by the first option.
`none` = the candidate is skipped.  (`options[0]` cannot fail here because the
length guard holds; `headD` is its total rendering.) -/
def validateQuestion (topicArg : String) (difficulty : Int) (q : RawQuestion) :
    Option QuizQuestion :=
  match q.question, q.options, q.correct_answer with
  | some qtext, some (PyOptionsVal.strs opts), some ca =>
    if 4 ≤ opts.length then
      let options := opts.take 4
      let correct := if options.contains ca then ca else options.headD ""
      some { id := "", question := qtext, options := options, correct_answer := correct,
             topic := q.topic.getD topicArg, difficulty_level := difficulty, resource_id := "" }
    else none
  | _, _, _ => none

/-- One generation attempt of `generate_quiz_questions`: `none` abstracts every
failing outcome (transport error, empty response, unparsable JSON, a non-array
payload), `some data` a parsed JSON array.  The attempt succeeds when, after
truncating to `count` and validating, at least `count` questions remain. -/
def attemptQuestions (topicArg : String) (difficulty : Int) (count : Nat)
    (att : Option (List RawQuestion)) : Option (List QuizQuestion) :=
  match att with
  | none => none
  | some data =>
    let valid := (data.take count).filterMap (validateQuestion topicArg difficulty)
    if count ≤ valid.length then some (valid.take count) else none

/-- The retry loop of `generate_quiz_questions`: attempts are consumed in
order until one succeeds; exhaustion falls through to the static bank. -/
def retryLoop (topicArg : String) (difficulty : Int) (count : Nat) :
    List (Option (List RawQuestion)) → Option (List QuizQuestion)
  | [] => none
  | a :: rest =>
    match attemptQuestions topicArg difficulty count a with
    | some qs => some qs
    | none => retryLoop topicArg difficulty count rest
/-- The algebra entry of the static question bank of
`ContentGeneratorAgent._generate_basic_questions` (content_generator.py lines 229-258),
transcribed verbatim: (question text, the 4 options). -/
def algebraQuestionBank : List (String × List String) :=
  [("What is a variable in algebra?",
    ["A letter representing an unknown", "A constant number", "An operation", "A graph"]),
   ("How do you solve x + 5 = 10?",
    ["Subtract 5 from both sides", "Add 5 to both sides", "Multiply by 5", "Divide by 5"]),
   ("What is a linear equation?",
    ["An equation with degree 1", "An equation with degree 2", "A curved line", "A circle"]),
   ("What does 'like terms' mean?",
    ["Terms with same variables and powers", "Any two numbers", "Equal signs", "Multiplication terms"]),
   ("What is the order of operations?",
    ["PEMDAS/BODMAS", "Left to right always", "Addition first", "Random order"])]

/-- The calculus entry of the static question bank of
`ContentGeneratorAgent._generate_basic_questions` (content_generator.py lines 229-258),
transcribed verbatim: (question text, the 4 options). -/
def calculusQuestionBank : List (String × List String) :=
  [("What is a limit?",
    ["Value a function approaches", "Maximum value", "Minimum value", "Average value"]),
   ("What is a derivative?",
    ["Rate of change", "Area under curve", "Maximum point", "Minimum point"]),
   ("What is integration?",
    ["Finding area under curve", "Finding slope", "Finding maximum", "Finding minimum"]),
   ("What does continuity mean?",
    ["No breaks in function", "Always increasing", "Always positive", "Has a maximum"]),
   ("What is the fundamental theorem?",
    ["Links derivatives and integrals", "States all functions continuous", "Proves limits exist", "Shows functions are smooth"])]

/-- The geometry entry of the static question bank of
`ContentGeneratorAgent._generate_basic_questions` (content_generator.py lines 229-258),
transcribed verbatim: (question text, the 4 options). -/
def geometryQuestionBank : List (String × List String) :=
  [("Sum of angles in a triangle?",
    ["180 degrees", "360 degrees", "90 degrees", "270 degrees"]),
   ("Area of a rectangle?",
    ["length × width", "2(length + width)", "length + width", "length²"]),
   ("What is a right angle?",
    ["90 degrees", "180 degrees", "45 degrees", "60 degrees"]),
   ("What is the Pythagorean theorem?",
    ["a² + b² = c²", "a + b = c", "a × b = c", "a² = b² + c²"]),
   ("How many sides does a hexagon have?",
    ["6", "5", "7", "8"])]

/-- The trigonometry entry of the static question bank of
`ContentGeneratorAgent._generate_basic_questions` (content_generator.py lines 229-258),
transcribed verbatim: (question text, the 4 options). -/
def trigonometryQuestionBank : List (String × List String) :=
  [("What is sine in a right triangle?",
    ["opposite/hypotenuse", "adjacent/hypotenuse", "opposite/adjacent", "hypotenuse/opposite"]),
   ("What is cosine in a right triangle?",
    ["adjacent/hypotenuse", "opposite/hypotenuse", "opposite/adjacent", "hypotenuse/adjacent"]),
   ("What is tangent in a right triangle?",
    ["opposite/adjacent", "adjacent/opposite", "opposite/hypotenuse", "adjacent/hypotenuse"]),
   ("What is the unit circle?",
    ["Circle with radius 1", "Circle with radius 2", "Any circle", "Circle with diameter 1"]),
   ("What is the period of sin(x)?",
    ["2π", "π", "π/2", "4π"])]

/-- The full `question_templates` dict, in insertion order. -/
def questionTemplates : List (String × List (String × List String)) :=
  [("algebra", algebraQuestionBank), ("calculus", calculusQuestionBank), ("geometry", geometryQuestionBank), ("trigonometry", trigonometryQuestionBank)]
/-- `question_templates.get(topic.lower(), question_templates['algebra'])`. -/
def templatesForTopic (topic : String) : List (String × List String) :=
  (questionTemplates.lookup (pyToLower topic)).getD algebraQuestionBank

/-- A bank question as `_generate_basic_questions` builds it in its first loop:
the first authored option is the correct answer.  (`options[0]` on the concrete
bank is total; `headD` is its total rendering.) -/
def plainQuestion (topic : String) (difficulty : Int) (t : String × List String) : QuizQuestion :=
  { id := "", question := t.1, options := t.2, correct_answer := t.2.headD "",
    topic := topic, difficulty_level := difficulty, resource_id := "" }

/-- A padding question of `_generate_basic_questions`' second loop: the same
bank entry with an `Advanced: ` title prefix. -/
def advancedQuestion (topic : String) (difficulty : Int) (t : String × List String) :
    QuizQuestion :=
  { plainQuestion topic difficulty t with question := "Advanced: " ++ t.1 }

/-- `ContentGeneratorAgent._generate_basic_questions` (content_generator.py
lines 225-290): one plain question per bank entry up to `count`, then
`Advanced:`-prefixed repeats cycling through the bank until `count` questions
exist, and a final truncation to `count`. -/
def generate_basic_questions (topic : String) (difficulty : Int) (count : Nat) :
    List QuizQuestion :=
  let templates := templatesForTopic topic
  let firstPart := (templates.take count).map (plainQuestion topic difficulty)
  let extra := (List.range (count - firstPart.length)).map
    (fun j => advancedQuestion topic difficulty
      (templates.getD ((firstPart.length + j) % templates.length) ("", [])))
  (firstPart ++ extra).take count

/-- `ContentGeneratorAgent.generate_quiz_questions` (content_generator.py lines
74-179): up to `max_retries = 3` generation attempts (hence `attempts.take 3`),
each retried on any exception, parse failure or insufficient valid-question
count; exhaustion degrades to the static per-topic bank. -/
def generate_quiz_questions (topic : String) (difficulty : Int) (count : Nat)
    (attempts : List (Option (List RawQuestion))) : List QuizQuestion :=
  match retryLoop topic difficulty count (attempts.take 3) with
  | some qs => qs
  | none => generate_basic_questions topic difficulty count

/-! ## Evaluator (`agents/evaluator.py`) -/

/-- The record `EvaluatorAgent.evaluate_quiz_response` returns for one
question (evaluator.py lines 45-50).  Scores are exact rationals (the Python
floats involved are exact on every feasible quiz size). -/
structure QuizResult where
  is_correct : Bool
  feedback : String
  topic : String
  score : ℚ
deriving DecidableEq

/-- The aggregate record `EvaluatorAgent.generate_overall_feedback` returns
(evaluator.py lines 97-104). -/
structure OverallFeedback where
  average_score : ℚ
  total_questions : Nat
  correct_answers : Nat
  weak_topics : List String
  strong_topics : List String
  recommendation : String
deriving DecidableEq

/-- `EvaluatorAgent.evaluate_quiz_response`'s correctness test (evaluator.py
line 18): case-insensitive, whitespace-trimmed string equality. -/
def answerIsCorrect (q : QuizQuestion) (user_answer : String) : Bool :=
  pyToLower (pyStrip user_answer) == pyToLower (pyStrip q.correct_answer)

/-- `EvaluatorAgent.generate_overall_feedback` (evaluator.py lines 52-104).
`gatewayResponse` is the recommendation text the gateway returned (`none` =
the call raised).  Python's `list(set(...))` keeps one copy of each topic in
an unspecified order; it is embedded as `dedup` (first-occurrence order). -/
def generate_overall_feedback (quiz_results : List QuizResult)
    (gatewayResponse : Option String) : OverallFeedback :=
  if quiz_results.isEmpty then
    { average_score := 0, total_questions := 0, correct_answers := 0,
      weak_topics := [], strong_topics := [], recommendation := "No quiz data available" }
  else
    let total_score := (quiz_results.map (fun r => r.score)).sum
    let average_score := total_score / (quiz_results.length : ℚ)
    let weak_topics := (quiz_results.filter (fun r => !r.is_correct)).map (fun r => r.topic)
    let strong_topics := (quiz_results.filter (fun r => r.is_correct)).map (fun r => r.topic)
    let recommendation :=
      match gatewayResponse with
      | some resp =>
        if resp ≠ "" then pyStrip resp
        else if (70 : ℚ) ≤ average_score then "Great job! Keep up the good work!"
        else "Keep practicing to improve your understanding!"
      | none =>
        if (70 : ℚ) ≤ average_score then "Great job! Keep up the good work!"
        else "Keep practicing to improve!"
    { average_score := average_score, total_questions := quiz_results.length,
      correct_answers := strong_topics.length, weak_topics := weak_topics.dedup,
      strong_topics := strong_topics.dedup, recommendation := recommendation }

/-! ## Quiz submission and path advancement (`app.py` submit_quiz) -/

/-- The `learning_paths` document as `submit_quiz` reads and writes it:
resource ids, the 0-based cursor, and the per-resource progress map. -/
structure LearningPathDoc where
  resources : List String
  current_position : Nat
  progress : List (String × OverallFeedback)
deriving DecidableEq

/-- MongoDB `$set` on one key of the `progress` map: replace the entry if the
key exists, otherwise add it. -/
def setProgressKey (m : List (String × OverallFeedback)) (k : String) (v : OverallFeedback) :
    List (String × OverallFeedback) :=
  if m.any (fun p => p.1 == k) then
    m.map (fun p => if p.1 == k then (k, v) else p)
  else m ++ [(k, v)]

/-- The path-advancement step of `submit_quiz` (app.py lines 298-310): when the
aggregate `average_score` is at least 60, the cursor moves to
`min(current_position + 1, len(resources))` and `progress[resource_id]` is set
to the overall feedback; otherwise the path document is untouched. -/
def submit_quiz_advance (path : LearningPathDoc) (overall_feedback : OverallFeedback)
    (resource_id : String) : LearningPathDoc :=
  if (60 : ℚ) ≤ overall_feedback.average_score then
    { resources := path.resources,
      current_position := min (path.current_position + 1) path.resources.length,
      progress := setProgressKey path.progress resource_id overall_feedback }
  else path
/-! ## Topic sequencing (`agents/orchestrator.py _get_quick_topics`,
`agents/path_generator.py _get_fallback_topics`) -/

/-- The canonical algebra topic list (identical in orchestrator.py lines
114-120 and path_generator.py lines 120-126). -/
def algebraTopics : List String :=
  ["Variables and Expressions", "Linear Equations", "Systems of Equations",
   "Quadratic Functions", "Polynomial Operations"]

/-- The canonical geometry topic list. -/
def geometryTopics : List String :=
  ["Basic Shapes and Properties", "Angles and Triangles", "Area and Perimeter",
   "Circle Geometry", "3D Shapes and Volume"]

/-- The canonical trigonometry topic list. -/
def trigonometryTopics : List String :=
  ["Introduction to Trigonometry", "Sine, Cosine, and Tangent", "Unit Circle",
   "Trigonometric Identities", "Applications of Trigonometry"]

/-- The canonical calculus topic list. -/
def calculusTopics : List String :=
  ["Limits and Continuity", "Introduction to Derivatives", "Applications of Derivatives",
   "Introduction to Integrals", "Applications of Integration"]

/-- The `topic_sequences` dict (identical in `_get_quick_topics` and
`_get_fallback_topics`), in insertion order. -/
def topicSequences : List (String × List String) :=
  [("algebra", algebraTopics), ("geometry", geometryTopics),
   ("trigonometry", trigonometryTopics), ("calculus", calculusTopics)]

/-- `topic_sequences.get(subject.lower(), topic_sequences['algebra'])`. -/
def baseTopicsFor (subject : String) : List String :=
  (topicSequences.lookup (pyToLower subject)).getD algebraTopics

/-- The weak-area match of the prioritization loop:
`weak_area.lower() in topic.lower()` (case-insensitive substring). -/
def weakMatches (weak_area topic : String) : Bool :=
  pyInStr (pyToLower weak_area) (pyToLower topic)

/-- Whether any declared weak area matches a topic. -/
def matchesAnyWeak (weak_areas : List String) (topic : String) : Bool :=
  weak_areas.any (fun w => weakMatches w topic)

/-- The inner loop of the prioritization phase: append every base topic the
given weak area matches, skipping topics already collected. -/
def addMatchingTopics (weak_area : String) (base_topics acc : List String) : List String :=
  base_topics.foldl
    (fun acc2 topic =>
      if weakMatches weak_area topic && !(acc2.contains topic) then acc2 ++ [topic] else acc2)
    acc

/-- The first phase of the prioritization (`for weak_area in weak_areas: for
topic in base_topics: ...`), starting from the empty list. -/
def prioritizedPhase (weak_areas base_topics : List String) : List String :=
  weak_areas.foldl (fun acc w => addMatchingTopics w base_topics acc) []

/-- The second phase: append the base topics not collected yet, in base order. -/
def addRemainingTopics (base_topics acc : List String) : List String :=
  base_topics.foldl (fun acc2 topic => if !(acc2.contains topic) then acc2 ++ [topic] else acc2)
    acc

/-- `AgentOrchestrator._get_quick_topics` (orchestrator.py lines 110-161):
canonical per-subject topics (unknown subjects fall back to the algebra list);
when weak areas are declared, topics matching one are collected first, the
remaining canonical topics are appended, and the result is truncated to 5. -/
def get_quick_topics (subject : String) (weak_areas : List String) : List String :=
  let base_topics := baseTopicsFor subject
  if weak_areas.isEmpty then base_topics.take 5
  else (addRemainingTopics base_topics (prioritizedPhase weak_areas base_topics)).take 5

/-- `PathGeneratorAgent._get_fallback_topics` (path_generator.py lines
116-167): textually identical to `_get_quick_topics`. -/
def get_fallback_topics (subject : String) (weak_areas : List String) : List String :=
  get_quick_topics subject weak_areas

/-! ## Content Synthesizer (`agents/learning_content_generator.py`) -/

/-- One entry of a static content bank: the `title`/`content`/`summary`/
`objectives` fields of a template dict. -/
structure ContentTemplate where
  title : String
  content : String
  summary : String
  objectives : List String
deriving DecidableEq

/-- `LearningContentGenerator._get_resource_types_for_style`
(learning_content_generator.py lines 46-56). -/
def lcgResourceTypesForStyle (learning_style : String) : List String :=
  ([("visual", ["infographic_lesson", "diagram_tutorial", "visual_guide", "chart_explanation"]),
    ("auditory", ["audio_lesson", "discussion_guide", "verbal_explanation", "story_based_lesson"]),
    ("reading", ["text_lesson", "article", "step_by_step_guide", "detailed_explanation"]),
    ("kinesthetic", ["interactive_exercise", "hands_on_activity", "practice_problems", "simulation"])]
    : List (String × List String)).lookup learning_style
    |>.getD ["lesson", "tutorial", "guide", "practice"]

/-- `PathGeneratorAgent._get_resource_types_for_style` (path_generator.py
lines 223-233; its visual and auditory lists differ from the Content
Synthesizer's). -/
def pgResourceTypesForStyle (learning_style : String) : List String :=
  ([("visual", ["visual_lesson", "diagram_tutorial", "infographic_lesson", "chart_explanation"]),
    ("auditory", ["audio_lesson", "discussion_guide", "verbal_explanation", "story_lesson"]),
    ("reading", ["text_lesson", "article", "step_by_step_guide", "detailed_explanation"]),
    ("kinesthetic", ["interactive_exercise", "hands_on_activity", "practice_problems", "simulation"])]
    : List (String × List String)).lookup learning_style
    |>.getD ["lesson", "tutorial", "guide", "practice"]
/-- The algebra entries (tiers 1, 2, 3, 4, 5) of the Content Synthesizer's static content bank
(`LearningContentGenerator._generate_fallback_content`, learning_content_generator.py
lines 146-1620), transcribed verbatim. The tier-1 body is an f-string interpolating the learning style. -/
def lcgAlgebraTemplates (learning_style : String) : List (Int × ContentTemplate) :=
  [(1, ContentTemplate.mk "Introduction to Algebraic Variables"
    ("Welcome to the world of algebra! This " ++ learning_style ++ "-focused lesson will introduce you to one of the most fundamental concepts in mathematics: variables.

What is a Variable?
A variable is a letter or symbol that represents an unknown number. Think of it as a placeholder or a mystery box that contains a value we don't know yet. The most commonly used variables are x, y, and z, but any letter can be a variable.

Why Do We Use Variables?
Variables are incredibly useful because they allow us to:
1. Write general rules and formulas
2. Solve problems where we don't know all the values
3. Express relationships between quantities
4. Make mathematics more flexible and powerful

Examples in Real Life:
Let's say you're planning a pizza party. You know each pizza costs $12, but you don't know how many pizzas you'll need. We can write this as:
Total cost = 12 × p (where p is the number of pizzas)

If you end up buying 3 pizzas, then p = 3, and the total cost = 12 × 3 = $36.

Basic Operations with Variables:
When working with variables, we can perform the same operations as with regular numbers:
- Addition: x + 5 (add 5 to whatever x represents)
- Subtraction: y - 3 (subtract 3 from whatever y represents)
- Multiplication: 4z (multiply whatever z represents by 4)
- Division: x/2 (divide whatever x represents by 2)

Key Points to Remember:
- A variable can represent any number
- The same variable in an expression represents the same value
- Variables help us write general mathematical statements
- We can substitute actual numbers for variables when we know their values

Practice Thinking:
Look around your daily life and try to identify situations where you might use variables. How much will groceries cost if you buy x items? How long will it take to drive somewhere at y miles per hour?

This foundation will be crucial as we move forward to more complex algebraic concepts!")
    "An introduction to algebraic variables, explaining what they are, why we use them, and how they work in basic mathematical operations."
    ["Understand what a variable represents", "Identify variables in mathematical expressions", "Apply variables to real-world situations"]),
   (2, ContentTemplate.mk "Working with Linear Equations"
    "Now that you understand variables, let's explore linear equations - one of the most important topics in algebra!

What is a Linear Equation?
A linear equation is an equation where the highest power of the variable is 1. It creates a straight line when graphed. The general form is: ax + b = c, where a, b, and c are numbers, and x is our variable.

Examples of Linear Equations:
- x + 3 = 7
- 2y - 5 = 11
- 3z + 8 = 20

The Goal: Solving for the Variable
When we solve a linear equation, we're finding the value of the variable that makes the equation true. Think of it as solving a puzzle!

The Golden Rule: Balance
Whatever you do to one side of the equation, you must do to the other side. This keeps the equation balanced, like a scale.

Step-by-Step Solution Process:
Let's solve: 2x + 3 = 11

Step 1: Isolate the term with the variable
Subtract 3 from both sides: 2x + 3 - 3 = 11 - 3
This gives us: 2x = 8

Step 2: Get the variable by itself
Divide both sides by 2: 2x ÷ 2 = 8 ÷ 2
This gives us: x = 4

Step 3: Check your answer
Substitute x = 4 back into the original equation:
2(4) + 3 = 8 + 3 = 11 ✓

Real-World Applications:
Linear equations appear everywhere:
- If you earn $15 per hour, how many hours (h) do you need to work to earn $120?
  Equation: 15h = 120, Solution: h = 8 hours

- A phone plan costs $30 plus $0.10 per text. If your bill is $45, how many texts (t) did you send?
  Equation: 30 + 0.10t = 45, Solution: t = 150 texts

Common Mistakes to Avoid:
1. Forgetting to do the same operation to both sides
2. Making arithmetic errors
3. Not checking your answer
4. Mixing up positive and negative signs

Practice Strategy:
Start with simple equations and gradually work up to more complex ones. Always check your answers by substituting back into the original equation!"
    "Learn to solve linear equations using balance principles, step-by-step methods, and real-world applications."
    ["Solve linear equations systematically", "Apply linear equations to real problems", "Check solutions for accuracy"]),
   (3, ContentTemplate.mk "Mastering Systems of Equations"
    "Welcome to systems of equations - where we solve multiple equations with multiple variables simultaneously!

What is a System of Equations?
A system of equations is a set of two or more equations with the same variables. Our goal is to find values for the variables that satisfy ALL equations at the same time.

Example System:
x + y = 10
2x - y = 2

This system asks: \"What values of x and y make both equations true?\"

Method 1: Substitution
This method involves solving one equation for one variable, then substituting that expression into the other equation.

Solving our example:
From equation 1: y = 10 - x
Substitute into equation 2: 2x - (10 - x) = 2
Simplify: 2x - 10 + x = 2
Combine: 3x - 10 = 2
Solve: 3x = 12, so x = 4

Find y: y = 10 - 4 = 6
Solution: x = 4, y = 6

Method 2: Elimination
This method involves adding or subtracting equations to eliminate one variable.

Using our example:
x + y = 10
2x - y = 2

Add the equations: (x + y) + (2x - y) = 10 + 2
Simplify: 3x = 12
Solve: x = 4

Substitute back: 4 + y = 10, so y = 6

Method 3: Graphing
Each equation represents a line. The solution is where the lines intersect.

Real-World Applications:
1. Business Problems:
   A store sells t-shirts for $15 and hats for $10. If they sold 100 items for $1300 total:
   t + h = 100 (total items)
   15t + 10h = 1300 (total revenue)

2. Motion Problems:
   Two cars travel toward each other. Car A travels at 60 mph, Car B at 40 mph. They start 200 miles apart:
   Distance₁ + Distance₂ = 200
   60t + 40t = 200 (where t is time in hours)

Choosing the Best Method:
- Substitution: When one equation is easily solved for a variable
- Elimination: When coefficients can be easily made opposite
- Graphing: For visual learners or to estimate solutions

Special Cases:
- No Solution: Lines are parallel (inconsistent system)
- Infinite Solutions: Lines are the same (dependent system)
- One Solution: Lines intersect at one point (independent system)

Practice Tips:
1. Always check your solution in BOTH original equations
2. Keep your work organized and neat
3. Choose the method that seems easiest for each problem
4. Draw graphs when helpful for visualization"
    "Master three methods for solving systems of equations: substitution, elimination, and graphing, with real-world applications."
    ["Apply substitution method effectively", "Use elimination to solve systems", "Recognize and interpret different types of solutions"]),
   (4, ContentTemplate.mk "Understanding Quadratic Functions"
    "Welcome to quadratic functions - the curved world of algebra that opens doors to advanced mathematics!

What is a Quadratic Function?
A quadratic function is a function where the highest power of the variable is 2. The standard form is:
f(x) = ax² + bx + c, where a ≠ 0

The graph of a quadratic function is a parabola - a U-shaped or upside-down U-shaped curve.

Key Features of Parabolas:
1. Vertex: The highest or lowest point
2. Axis of Symmetry: A vertical line through the vertex
3. Y-intercept: Where the parabola crosses the y-axis
4. X-intercepts (zeros): Where the parabola crosses the x-axis

Direction of Opening:
- If a > 0: parabola opens upward (has a minimum)
- If a < 0: parabola opens downward (has a maximum)

Finding the Vertex:
For f(x) = ax² + bx + c, the vertex is at x = -b/(2a)

Example: f(x) = x² - 4x + 3
Vertex x-coordinate: x = -(-4)/(2×1) = 4/2 = 2
Vertex y-coordinate: f(2) = 2² - 4(2) + 3 = 4 - 8 + 3 = -1
Vertex: (2, -1)

Solving Quadratic Equations:
Method 1: Factoring
x² - 5x + 6 = 0
Factor: (x - 2)(x - 3) = 0
Solutions: x = 2 or x = 3

Method 2: Quadratic Formula
For ax² + bx + c = 0:
x = [-b ± √(b² - 4ac)] / (2a)

Method 3: Completing the Square
Transform the equation into perfect square form.

Real-World Applications:
1. Projectile Motion:
   A ball thrown upward: h(t) = -16t² + 64t + 5
   (height in feet after t seconds)

2. Profit Maximization:
   A company's profit: P(x) = -2x² + 200x - 3000
   (profit for selling x items)

3. Area Problems:
   A rectangular garden with fixed perimeter: A(w) = w(20 - w)
   (area as function of width)

The Discriminant:
The expression b² - 4ac tells us about solutions:
- If b² - 4ac > 0: Two real solutions
- If b² - 4ac = 0: One real solution (vertex touches x-axis)
- If b² - 4ac < 0: No real solutions (parabola doesn't cross x-axis)

Transformations:
Starting with f(x) = x²:
- f(x) = x² + k: shifts up k units
- f(x) = (x - h)²: shifts right h units
- f(x) = a(x - h)² + k: combines shifts and stretches

Vertex Form:
f(x) = a(x - h)² + k
Where (h, k) is the vertex

This form makes it easy to identify transformations and sketch graphs quickly.

Advanced Concepts:
- Axis of symmetry: x = h
- Maximum/minimum value: k
- Domain: all real numbers
- Range: depends on whether parabola opens up or down

Practice Strategy:
1. Start by identifying a, b, and c
2. Determine if parabola opens up or down
3. Find the vertex
4. Find intercepts
5. Sketch the graph
6. Solve related equations"
    "Explore quadratic functions, their graphs (parabolas), key features, and multiple solution methods with real-world applications."
    ["Identify key features of parabolas", "Solve quadratic equations using multiple methods", "Apply quadratic functions to real-world problems"]),
   (5, ContentTemplate.mk "Advanced Polynomial Operations"
    "Master the advanced techniques for working with polynomials - the building blocks of higher mathematics!

What are Polynomials?
Polynomials are expressions with variables raised to whole number powers, combined with addition, subtraction, and multiplication. Examples:
- 3x² + 2x - 5 (quadratic)
- x³ - 4x² + x + 6 (cubic)
- 5x⁴ - 2x² + 1 (quartic)

Key Terminology:
- Degree: highest power of the variable
- Leading coefficient: coefficient of the highest degree term
- Constant term: term without a variable
- Standard form: terms arranged from highest to lowest degree

Polynomial Addition and Subtraction:
Combine like terms (terms with the same variable and power).

Example:
(3x³ + 2x² - x + 4) + (x³ - 5x² + 3x - 2)
= (3x³ + x³) + (2x² - 5x²) + (-x + 3x) + (4 - 2)
= 4x³ - 3x² + 2x + 2

Polynomial Multiplication:
Use the distributive property repeatedly.

Multiplying by a Monomial:
3x(2x² - 4x + 1) = 6x³ - 12x² + 3x

Multiplying Binomials (FOIL):
(x + 3)(2x - 5)
= x(2x) + x(-5) + 3(2x) + 3(-5)
= 2x² - 5x + 6x - 15
= 2x² + x - 15

Special Products:
1. Square of a Binomial:
   (a + b)² = a² + 2ab + b²
   (a - b)² = a² - 2ab + b²

2. Difference of Squares:
   (a + b)(a - b) = a² - b²

3. Sum and Difference of Cubes:
   a³ + b³ = (a + b)(a² - ab + b²)
   a³ - b³ = (a - b)(a² + ab + b²)

Polynomial Division:
Long Division Method:
Divide x³ + 2x² - 5x + 2 by x + 3

Step 1: Divide leading terms: x³ ÷ x = x²
Step 2: Multiply: x²(x + 3) = x³ + 3x²
Step 3: Subtract: (x³ + 2x² - 5x + 2) - (x³ + 3x²) = -x² - 5x + 2
Step 4: Repeat until degree of remainder < divisor

Synthetic Division:
A shortcut for dividing by (x - c).

Factoring Polynomials:
1. Greatest Common Factor (GCF):
   6x³ + 9x² = 3x²(2x + 3)

2. Factoring by Grouping:
   x³ + 2x² + 3x + 6 = x²(x + 2) + 3(x + 2) = (x² + 3)(x + 2)

3. Factoring Quadratics:
   x² + 5x + 6 = (x + 2)(x + 3)

4. Special Cases:
   x² - 9 = (x + 3)(x - 3) [difference of squares]
   x³ + 8 = (x + 2)(x² - 2x + 4) [sum of cubes]

The Remainder Theorem:
If a polynomial P(x) is divided by (x - c), the remainder equals P(c).

The Factor Theorem:
(x - c) is a factor of P(x) if and only if P(c) = 0.

Rational Root Theorem:
For polynomial P(x) = aₙxⁿ + ... + a₁x + a₀, any rational root p/q must have:
- p divides a₀ (constant term)
- q divides aₙ (leading coefficient)

Finding Zeros of Polynomials:
1. Try rational roots using Rational Root Theorem
2. Use synthetic division to factor
3. Apply quadratic formula to remaining quadratic factors
4. Consider complex roots for higher-degree polynomials

Graphing Polynomial Functions:
Key features to identify:
- End behavior (determined by leading term)
- x-intercepts (zeros of the function)
- y-intercept (constant term)
- Turning points (at most n-1 for degree n)
- Multiplicity of roots affects graph behavior

Real-World Applications:
1. Volume Problems:
   Box volume: V(x) = x(20-2x)(15-2x) where x is cut size

2. Economics:
   Revenue functions: R(x) = -0.01x³ + 50x² - 1000x

3. Physics:
   Position functions: s(t) = -16t² + v₀t + s₀

Advanced Techniques:
- Polynomial long division
- Synthetic division
- Descartes' Rule of Signs
- Complex roots and conjugate pairs
- Fundamental Theorem of Algebra

Mastery Tips:
1. Practice factoring patterns daily
2. Memorize special products
3. Check work by expanding factored forms
4. Use graphing to verify algebraic solutions
5. Connect polynomial operations to geometric interpretations"
    "Master advanced polynomial operations including multiplication, division, factoring, and finding zeros with real-world applications."
    ["Perform complex polynomial operations", "Factor polynomials using multiple techniques", "Find and interpret zeros of polynomial functions"])]

/-- The geometry entries (tiers 1, 2, 3, 4, 5) of the Content Synthesizer's static content bank
(`LearningContentGenerator._generate_fallback_content`, learning_content_generator.py
lines 146-1620), transcribed verbatim. -/
def lcgGeometryTemplates : List (Int × ContentTemplate) :=
  [(1, ContentTemplate.mk "Fundamentals of Geometric Shapes"
    "Welcome to geometry - the study of shapes, sizes, and spatial relationships!

What is Geometry?
Geometry is the branch of mathematics that deals with points, lines, angles, surfaces, and solids. It helps us understand the world around us through shapes and spatial reasoning.

Basic Building Blocks:

1. Points:
A point is a location in space with no size or dimension. We name points with capital letters (A, B, C).

2. Lines:
A line extends infinitely in both directions. It has no thickness and is perfectly straight. We name lines with two points on them (line AB) or with lowercase letters.

3. Line Segments:
A part of a line with two endpoints. Segment AB has definite length.

4. Rays:
A part of a line that starts at one point and extends infinitely in one direction.

5. Angles:
Formed when two rays share a common endpoint (vertex).

Types of Angles:
- Acute: less than 90°
- Right: exactly 90°
- Obtuse: between 90° and 180°
- Straight: exactly 180°
- Reflex: between 180° and 360°

Basic Shapes:

Triangles:
- 3 sides, 3 angles
- Sum of angles = 180°
- Types: equilateral, isosceles, scalene
- By angles: acute, right, obtuse

Quadrilaterals:
- 4 sides, 4 angles
- Sum of angles = 360°
- Types: square, rectangle, parallelogram, rhombus, trapezoid

Circles:
- All points equidistant from center
- Radius: distance from center to edge
- Diameter: distance across through center
- Circumference: distance around the circle

Polygons:
- Closed figures with straight sides
- Regular: all sides and angles equal
- Examples: pentagon (5 sides), hexagon (6 sides), octagon (8 sides)

Measuring and Relationships:
When working with shapes, we often need to find:
- Perimeter: distance around the outside
- Area: space inside the shape
- Volume: space inside 3D shapes

Geometric Relationships:
- Parallel lines: never intersect
- Perpendicular lines: intersect at 90°
- Congruent: same size and shape
- Similar: same shape, different size

Real-World Applications:
Geometry is everywhere:
- Architecture: designing buildings
- Art: creating balanced compositions
- Sports: calculating playing field dimensions
- Navigation: using coordinates and distances
- Technology: computer graphics and design

Visual Learning Tips:
Since this is tailored for visual learners:
- Draw diagrams for every problem
- Use different colors for different parts
- Create charts showing angle relationships
- Build or visualize 3D models for spatial problems
- Use geometric software or apps when available

Key Formulas to Remember:
- Triangle area: A = ½ × base × height
- Rectangle area: A = length × width
- Circle area: A = πr²
- Circle circumference: C = 2πr

Practice Strategies:
1. Start with simple shapes and build complexity
2. Always label your diagrams clearly
3. Look for patterns in geometric relationships
4. Connect abstract concepts to real objects
5. Practice estimation skills alongside exact calculations

Geometry Tools:
- Ruler: measuring lengths
- Protractor: measuring angles
- Compass: drawing circles and arcs
- Straightedge: drawing straight lines

This foundation will prepare you for more advanced geometric concepts like proofs, coordinate geometry, and trigonometry!"
    "Introduction to basic geometric concepts including points, lines, angles, and fundamental shapes with their properties."
    ["Identify and classify basic geometric shapes", "Understand angle relationships and measurements", "Apply geometric concepts to real-world situations"]),
   (2, ContentTemplate.mk "Exploring Angles, Lines, and Triangles"
    "Dive deeper into the fascinating relationships between angles, lines, and triangles!

Angle Relationships:

Adjacent Angles:
Two angles that share a common vertex and side but don't overlap.

Vertical Angles:
Opposite angles formed when two lines intersect. They are always equal.
Example: If two lines intersect forming angles of 60°, the opposite angle is also 60°.

Complementary Angles:
Two angles whose measures add up to 90°.
Example: 30° and 60° are complementary.

Supplementary Angles:
Two angles whose measures add up to 180°.
Example: 120° and 60° are supplementary.

Parallel Lines and Transversals:
When a line (transversal) crosses two parallel lines, it creates special angle relationships:

- Corresponding Angles: Same position at each intersection (equal)
- Alternate Interior Angles: Inside the parallel lines, opposite sides (equal)
- Alternate Exterior Angles: Outside the parallel lines, opposite sides (equal)
- Co-interior Angles: Inside the parallel lines, same side (supplementary)

Triangle Fundamentals:

The Triangle Angle Sum:
The sum of all angles in ANY triangle is always 180°.
If you know two angles, you can find the third: Third angle = 180° - (angle1 + angle2)

Triangle Classification by Sides:
1. Equilateral: All three sides equal, all angles 60°
2. Isosceles: Two sides equal, two angles equal
3. Scalene: All sides different, all angles different

Triangle Classification by Angles:
1. Acute: All angles less than 90°
2. Right: One angle exactly 90°
3. Obtuse: One angle greater than 90°

Special Right Triangles:

45-45-90 Triangle:
- Angles: 45°, 45°, 90°
- Side ratio: 1 : 1 : √2
- If legs = x, then hypotenuse = x√2

30-60-90 Triangle:
- Angles: 30°, 60°, 90°
- Side ratio: 1 : √3 : 2
- If short leg = x, then long leg = x√3, hypotenuse = 2x

Triangle Congruence:
Two triangles are congruent if they have the same size and shape.

Congruence Rules:
- SSS: Three sides equal
- SAS: Two sides and included angle equal
- ASA: Two angles and included side equal
- AAS: Two angles and non-included side equal
- HL: Hypotenuse-leg (right triangles only)

Triangle Inequality Theorem:
The sum of any two sides of a triangle must be greater than the third side.
For triangle with sides a, b, c:
- a + b > c
- a + c > b
- b + c > a

Exterior Angles:
An exterior angle of a triangle equals the sum of the two non-adjacent interior angles.

Practical Applications:

Construction and Architecture:
- Roof trusses use triangle stability
- Bridge designs rely on triangular support
- Angle measurements ensure proper building alignment

Navigation:
- Triangulation helps determine location
- Pilots use angle relationships for flight paths
- GPS systems use geometric principles

Art and Design:
- Perspective drawing uses angle relationships
- Geometric patterns in art follow triangle rules
- Photography composition uses triangle principles

Problem-Solving Strategies:

1. Draw and Label:
Always sketch the problem with all given information clearly marked.

2. Identify Relationships:
Look for parallel lines, angle pairs, and triangle types.

3. Use Known Theorems:
Apply angle sum, congruence rules, and special relationships.

4. Work Step by Step:
Don't try to solve everything at once. Find what you can, then use that to find more.

5. Check Your Work:
Verify that angle sums are correct and relationships make sense.

Real-World Problem Example:
A ladder leans against a wall at a 70° angle. If the wall is perpendicular to the ground, what's the angle between the ladder and the ground?

Solution: The ladder, wall, and ground form a right triangle.
Angles in triangle: 90° (wall-ground) + 70° (ladder-wall) + ? = 180°
Ladder-ground angle = 180° - 90° - 70° = 20°

Advanced Concepts Preview:
- Similarity and proportional relationships
- Triangle centers (centroid, circumcenter, incenter)
- Law of Sines and Law of Cosines
- Trigonometric ratios

Study Tips:
1. Practice identifying angle relationships in real buildings and objects
2. Use a protractor to measure angles in your environment
3. Create flashcards for triangle properties and angle relationships
4. Draw large, clear diagrams with proper labels
5. Practice mental math for common angle calculations (30°, 45°, 60°, 90°)

Common Mistakes to Avoid:
- Forgetting that triangle angles sum to 180°
- Confusing angle relationships (complementary vs supplementary)
- Not recognizing special right triangles
- Mixing up interior and exterior angles
- Assuming triangles are congruent without proving it

This knowledge forms the foundation for advanced geometry, trigonometry, and real-world problem solving!"
    "Explore angle relationships, parallel line properties, and triangle classifications with practical applications."
    ["Apply angle relationships to solve problems", "Classify triangles by sides and angles", "Use triangle congruence rules effectively"]),
   (3, ContentTemplate.mk "Calculating Area and Perimeter"
    "Master the essential skills of measuring spaces and boundaries in geometry!

Understanding Perimeter:
Perimeter is the distance around the outside of a shape. Think of it as the length of fence needed to surround a yard.

Basic Perimeter Formulas:

Rectangle: P = 2l + 2w (or 2(l + w))
Square: P = 4s
Triangle: P = a + b + c (sum of all sides)
Regular Polygon: P = n × s (number of sides × side length)
Circle (Circumference): C = 2πr or C = πd

Understanding Area:
Area is the amount of space inside a shape. Think of it as the amount of paint needed to cover a surface.

Basic Area Formulas:

Rectangle: A = l × w
Square: A = s²
Triangle: A = ½ × base × height
Parallelogram: A = base × height
Trapezoid: A = ½ × (b₁ + b₂) × h
Circle: A = πr²

Special Triangle Areas:
- Right Triangle: A = ½ × leg₁ × leg₂
- Equilateral Triangle: A = (s²√3)/4
- Using Heron's Formula: A = √[s(s-a)(s-b)(s-c)]
 where s = (a+b+c)/2

Composite Figures:
For complex shapes, break them into familiar pieces:

Example: L-shaped figure
Method 1: Add areas of rectangles
Method 2: Subtract cut-out area from larger rectangle

Step-by-Step Process:
1. Identify the basic shapes
2. Find all necessary measurements
3. Apply appropriate formulas
4. Add or subtract as needed

Units and Conversions:
Perimeter: linear units (feet, meters, inches)
Area: square units (ft², m², in²)

Common conversions:
- 1 foot = 12 inches
- 1 yard = 3 feet
- 1 meter = 100 centimeters
- 1 square foot = 144 square inches

Real-World Applications:

Home Improvement:
- Flooring: Calculate area to determine how much tile or carpet needed
- Fencing: Calculate perimeter to determine fence length
- Painting: Calculate wall area minus doors and windows
- Gardening: Calculate garden bed area for soil and plants

Construction:
- Concrete pouring: Calculate area for slabs
- Roofing: Calculate surface area for materials
- Landscaping: Calculate lawn area for seeding

Cost Calculations:
If carpet costs $3 per square foot, and a room is 12 ft × 10 ft:
Area = 12 × 10 = 120 ft²
Cost = 120 × $3 = $360

Problem-Solving Strategies:

1. Draw and Label:
Sketch the figure with all given measurements clearly marked.

2. Identify What's Asked:
Determine whether you need perimeter, area, or both.

3. Choose the Right Formula:
Match the shape to the appropriate formula.

4. Substitute and Calculate:
Replace variables with given values and solve.

5. Check Units:
Ensure your answer has the correct units (linear for perimeter, square for area).

6. Verify Reasonableness:
Does your answer make sense in context?

Advanced Techniques:

Using Coordinate Geometry:
For shapes on a coordinate plane:
- Distance formula for side lengths
- Shoelace formula for polygon areas

Irregular Shapes:
- Break into triangles and use coordinates
- Use integration for curved boundaries
- Approximate with rectangles or trapezoids

Optimization Problems:
Finding maximum area with fixed perimeter or minimum perimeter with fixed area.

Example: What rectangle with perimeter 40 has maximum area?
Let width = w, then length = 20 - w
Area = w(20 - w) = 20w - w²
Maximum when w = 10, giving a 10×10 square

Circle Sectors and Segments:
Sector area: A = (θ/360°) × πr² (for angle θ in degrees)
Arc length: s = (θ/360°) × 2πr

Practice Problems Types:

1. Basic Calculations:
Find area and perimeter of standard shapes.

2. Composite Figures:
Combine multiple shapes.

3. Word Problems:
Apply to real-world situations.

4. Missing Dimensions:
Given area or perimeter, find unknown measurements.

5. Comparison Problems:
Which shape has greater area or perimeter?

Common Mistakes to Avoid:
- Confusing perimeter and area formulas
- Using wrong units or forgetting to convert
- Not breaking complex shapes into simpler parts
- Forgetting to include all sides in perimeter
- Using diameter instead of radius in circle formulas

Tips for Success:
- Keep a formula sheet handy while learning
- Practice with real measurements around your home
- Use grid paper to visualize areas
- Double-check calculations with estimation
- Learn to recognize when answers are unreasonable

Technology Tools:
- Calculators for π calculations
- Geometry software for complex shapes
- Measurement apps on phones
- Online area calculators for verification

This foundation prepares you for surface area, volume, and advanced applications in higher mathematics!"
    "Learn to calculate area and perimeter for various shapes with real-world applications and problem-solving strategies."
    ["Apply area and perimeter formulas correctly", "Solve problems involving composite figures", "Use measurements for practical applications"]),
   (4, ContentTemplate.mk "Circle Geometry and Properties"
    "Explore the fascinating world of circles - one of geometry's most perfect and useful shapes!

Circle Fundamentals:

Definition:
A circle is the set of all points that are the same distance from a central point.

Key Parts of a Circle:
- Center: The fixed point in the middle
- Radius (r): Distance from center to any point on the circle
- Diameter (d): Distance across the circle through the center (d = 2r)
- Chord: A line segment connecting two points on the circle
- Arc: A portion of the circle's circumference
- Sector: A \"slice\" of the circle (like a piece of pie)
- Segment: The region between a chord and the arc it cuts off

Essential Circle Measurements:

Circumference (Perimeter of Circle):
C = 2πr or C = πd
π ≈ 3.14159... (pi is the ratio of circumference to diameter)

Area of Circle:
A = πr²

Important Relationships:
- All radii of a circle are equal
- Diameter is twice the radius
- Circumference is π times the diameter

Angles in Circles:

Central Angles:
Angle with vertex at the center of the circle.
The arc it intercepts has the same measure as the angle.

Inscribed Angles:
Angle with vertex on the circle and sides that are chords.
An inscribed angle is half the central angle that intercepts the same arc.

Key Angle Theorems:
1. Inscribed Angle Theorem: Inscribed angle = ½ × Central angle
2. Angles in a semicircle are always 90°
3. Opposite angles in a cyclic quadrilateral sum to 180°

Tangent and Secant Relationships:

Tangent Lines:
A line that touches the circle at exactly one point.
- Tangent is perpendicular to radius at point of contact
- Two tangents from external point are equal in length

Secant Lines:
A line that intersects the circle at two points.

Power of a Point:
For intersecting chords, tangents, and secants:
If two chords intersect inside a circle: a × b = c × d
If two secants from external point: (whole₁)(part₁) = (whole₂)(part₂)

Arcs and Sectors:

Arc Length:
For central angle θ (in degrees): Arc length = (θ/360°) × 2πr
For central angle θ (in radians): Arc length = θr

Sector Area:
For central angle θ (in degrees): Sector area = (θ/360°) × πr²
For central angle θ (in radians): Sector area = ½θr²

Real-World Applications:

Architecture and Design:
- Circular windows and domes
- Arches and curved structures
- Rotundas and circular buildings

Transportation:
- Wheel design and tire calculations
- Circular traffic patterns (roundabouts)
- Satellite dish curvature

Sports and Recreation:
- Athletic tracks and fields
- Basketball court circles
- Dartboard design

Technology:
- Gear ratios and mechanical systems
- Satellite orbital calculations
- Antenna design

Manufacturing:
- Pipe and tube specifications
- Circular saw blade design
- Container and tank design

Problem-Solving Strategies:

1. Identify Circle Elements:
Clearly mark center, radius, diameter, chords, tangents.

2. Choose Appropriate Formulas:
Match the problem type to the right formula.

3. Convert Units if Needed:
Ensure all measurements use the same units.

4. Use Relationships:
Apply theorems about angles, chords, and tangents.

5. Check Reasonableness:
Verify that answers make sense in context.

Advanced Circle Concepts:

Equation of a Circle:
Standard form: (x - h)² + (y - k)² = r²
Where (h, k) is the center and r is the radius

Circle on Coordinate Plane:
Use distance formula and circle equation to solve problems.

Concentric Circles:
Circles with the same center but different radii.
Area between circles = π(R² - r²)

Practical Examples:

Example 1: Pizza Problem
A 16-inch pizza is cut into 8 equal slices. What's the area of each slice?
Total area = π(8)² = 64π square inches
Each slice = 64π ÷ 8 = 8π ≈ 25.1 square inches

Example 2: Garden Sprinkler
A sprinkler waters in a circle with radius 15 feet. What area does it cover?
Area = π(15)² = 225π ≈ 707 square feet

Example 3: Ferris Wheel
A Ferris wheel has a radius of 50 feet. How far does a passenger travel in one complete rotation?
Distance = circumference = 2π(50) = 100π ≈ 314 feet

Common Mistakes to Avoid:
- Confusing radius and diameter
- Forgetting to square the radius in area formula
- Using degrees instead of the decimal equivalent in calculations
- Not converting between different angle measures
- Mixing up circumference and area formulas

Memory Aids:
- \"Area uses r-squared\" (A = πr²)
- \"Circumference is 2πr or πd\"
- \"Inscribed angles are half the central angle\"
- \"Tangents are perpendicular to radii\"

Technology Integration:
- Use π button on calculator for accuracy
- Graphing software to visualize circle problems
- Online circle calculators for verification
- Compass and protractor for hands-on construction

This circle knowledge connects to trigonometry, calculus, and advanced applications in engineering and science!"
    "Master circle properties, measurements, angles, and real-world applications with comprehensive problem-solving techniques."
    ["Calculate circle measurements accurately", "Apply circle theorems to solve problems", "Use circle geometry in practical situations"]),
   (5, ContentTemplate.mk "Three-Dimensional Shapes and Volume"
    "Enter the exciting world of 3D geometry where shapes have length, width, AND height!

Understanding 3D Space:

Dimensions:
- 1D: Length only (line)
- 2D: Length and width (flat shapes)
- 3D: Length, width, and height (solid objects)

Key 3D Concepts:
- Face: A flat surface of a 3D shape
- Edge: Where two faces meet
- Vertex: Where three or more edges meet
- Volume: Amount of space inside a 3D shape
- Surface Area: Total area of all faces

Common 3D Shapes:

Rectangular Prism (Box):
- 6 rectangular faces
- 12 edges, 8 vertices
- Volume: V = length × width × height
- Surface Area: SA = 2(lw + lh + wh)

Cube:
- Special rectangular prism with all edges equal
- Volume: V = s³
- Surface Area: SA = 6s²

Cylinder:
- Two circular bases connected by curved surface
- Volume: V = πr²h
- Surface Area: SA = 2πr² + 2πrh

Cone:
- Circular base with curved surface meeting at apex
- Volume: V = ⅓πr²h
- Surface Area: SA = πr² + πrl (where l is slant height)

Sphere:
- All points equidistant from center
- Volume: V = ⁴⁄₃πr³
- Surface Area: SA = 4πr²

Pyramid:
- Polygon base with triangular faces meeting at apex
- Volume: V = ⅓ × base area × height
- Square pyramid: V = ⅓s²h

Prism:
- Two parallel, congruent bases connected by rectangles
- Volume: V = base area × height
- Triangular prism: V = ½bwh (where b is triangle base, w is triangle height)

Volume Relationships:

Key Pattern:
- Prisms and Cylinders: V = base area × height
- Pyramids and Cones: V = ⅓ × base area × height
- Sphere: V = ⁴⁄₃πr³

Surface Area Strategies:

Net Method:
\"Unfold\" the 3D shape to see all faces, then add their areas.

Formula Method:
Use established formulas for common shapes.

Component Method:
Break complex shapes into simpler parts.

Real-World Applications:

Architecture and Construction:
- Building volume for heating/cooling calculations
- Material estimates for concrete, paint, roofing
- Storage capacity planning

Manufacturing:
- Container design and capacity
- Material usage optimization
- Packaging efficiency

Science and Engineering:
- Fluid dynamics and flow rates
- Structural load calculations
- Heat transfer and insulation

Everyday Life:
- Cooking (recipe scaling based on container size)
- Shipping and storage
- Home improvement projects

Problem-Solving Examples:

Example 1: Swimming Pool
A rectangular pool is 20 ft long, 10 ft wide, and 5 ft deep.
Volume = 20 × 10 × 5 = 1,000 cubic feet
To convert to gallons: 1,000 × 7.48 ≈ 7,480 gallons

Example 2: Ice Cream Cone
A cone has radius 3 cm and height 12 cm.
Volume = ⅓π(3)²(12) = ⅓π(9)(12) = 36π ≈ 113 cubic cm

Example 3: Storage Tank
A cylindrical tank has radius 5 ft and height 20 ft.
Volume = π(5)²(20) = 500π ≈ 1,571 cubic feet

Composite Figures:

Many real objects combine basic shapes:
- House: rectangular prism + triangular prism (roof)
- Silo: cylinder + cone or hemisphere
- Trophy: various shapes stacked

Strategy:
1. Identify component shapes
2. Calculate each volume separately
3. Add or subtract as appropriate

Units and Conversions:

Volume Units:
- Cubic inches (in³), cubic feet (ft³), cubic meters (m³)
- Liters, gallons, milliliters

Common Conversions:
- 1 ft³ = 1,728 in³
- 1 m³ = 1,000 liters
- 1 ft³ ≈ 7.48 gallons

Surface Area Applications:
- Paint needed for walls
- Material for packaging
- Heat loss through surfaces

Advanced Concepts:

Similar Solids:
If linear scale factor is k:
- Surface area scale factor: k²
- Volume scale factor: k³

Cross-Sections:
When a plane cuts through a 3D shape, it creates a 2D cross-section.

Cavalieri's Principle:
If two solids have the same height and equal cross-sectional areas at every level, they have equal volumes.

Optimization Problems:
Finding maximum volume with constraints or minimum surface area for given volume.

Technology Integration:

3D Modeling Software:
- SketchUp, Tinkercad for visualization
- CAD programs for precise calculations
- 3D printing for physical models

Calculators:
- Volume and surface area calculators
- Unit conversion tools
- Graphing calculators with 3D capabilities

Problem-Solving Steps:

1. Identify the Shape:
Determine what 3D shape(s) you're working with.

2. Gather Measurements:
Find all necessary dimensions (radius, height, length, width).

3. Choose Formulas:
Select appropriate volume or surface area formulas.

4. Calculate Carefully:
Pay attention to units and order of operations.

5. Check Reasonableness:
Does your answer make sense in the real-world context?

Common Mistakes:
- Confusing radius and diameter
- Forgetting to convert units
- Using wrong formula for the shape
- Mixing up volume and surface area
- Not accounting for all parts of composite figures

Study Tips:
- Build physical models with clay or blocks
- Use everyday objects to practice measurements
- Create formula cards with visual diagrams
- Practice with real-world scenarios
- Use online 3D shape manipulatives

This 3D geometry foundation is essential for calculus, physics, engineering, and countless practical applications!"
    "Explore three-dimensional shapes, volume calculations, surface area, and real-world applications with comprehensive problem-solving methods."
    ["Calculate volumes of common 3D shapes", "Find surface areas using multiple methods", "Apply 3D geometry to practical problems"])]

/-- The trigonometry entries (tiers 1) of the Content Synthesizer's static content bank
(`LearningContentGenerator._generate_fallback_content`, learning_content_generator.py
lines 146-1620), transcribed verbatim. -/
def lcgTrigonometryTemplates : List (Int × ContentTemplate) :=
  [(1, ContentTemplate.mk "Introduction to Trigonometry"
    "Welcome to trigonometry - the mathematics of triangles and circular motion!

What is Trigonometry?
Trigonometry comes from Greek words meaning \"triangle measurement.\" It's the study of relationships between angles and sides in triangles, with applications extending far beyond geometry into physics, engineering, and astronomy.

The Right Triangle Foundation:
Trigonometry begins with right triangles - triangles with one 90° angle.

In a right triangle, we have:
- Hypotenuse: The longest side (opposite the right angle)
- Adjacent side: The side next to the angle we're considering
- Opposite side: The side across from the angle we're considering

The Big Three: Sine, Cosine, and Tangent

For any acute angle θ (theta) in a right triangle:

Sine (sin): sin θ = opposite/hypotenuse
Cosine (cos): cos θ = adjacent/hypotenuse  
Tangent (tan): tan θ = opposite/adjacent

Memory Device - SOH CAH TOA:
- SOH: Sine = Opposite/Hypotenuse
- CAH: Cosine = Adjacent/Hypotenuse
- TOA: Tangent = Opposite/Adjacent

Why These Ratios Matter:
These ratios are constant for any given angle, regardless of the triangle's size. This makes them incredibly powerful tools for solving problems.

Example Problem:
In a right triangle, if one angle is 30° and the hypotenuse is 10 units:
- sin 30° = 0.5, so opposite side = 10 × 0.5 = 5 units
- cos 30° ≈ 0.866, so adjacent side = 10 × 0.866 ≈ 8.66 units

Special Right Triangles:

30-60-90 Triangle:
- Angles: 30°, 60°, 90°
- Side ratios: 1 : √3 : 2
- sin 30° = 1/2, cos 30° = √3/2, tan 30° = 1/√3

45-45-90 Triangle:
- Angles: 45°, 45°, 90°
- Side ratios: 1 : 1 : √2
- sin 45° = √2/2, cos 45° = √2/2, tan 45° = 1

Key Angle Values to Memorize:
- sin 0° = 0, cos 0° = 1, tan 0° = 0
- sin 30° = 1/2, cos 30° = √3/2, tan 30° = √3/3
- sin 45° = √2/2, cos 45° = √2/2, tan 45° = 1
- sin 60° = √3/2, cos 60° = 1/2, tan 60° = √3
- sin 90° = 1, cos 90° = 0, tan 90° = undefined

Reciprocal Functions:
- Cosecant (csc): csc θ = 1/sin θ = hypotenuse/opposite
- Secant (sec): sec θ = 1/cos θ = hypotenuse/adjacent
- Cotangent (cot): cot θ = 1/tan θ = adjacent/opposite

Real-World Applications:

Navigation:
Pilots and sailors use trigonometry to calculate distances and directions.

Construction:
Architects use trig to calculate roof angles, ramp slopes, and structural supports.

Astronomy:
Astronomers measure distances to stars and planets using trigonometric principles.

Physics:
Trigonometry describes wave motion, oscillations, and circular motion.

Technology:
Computer graphics, GPS systems, and engineering all rely heavily on trigonometry.

Problem-Solving Strategy:

1. Draw and Label:
Sketch the triangle and clearly label the given information.

2. Identify the Angle:
Determine which angle you're working with.

3. Identify Sides:
Relative to your angle, identify opposite, adjacent, and hypotenuse.

4. Choose the Right Ratio:
Based on what you know and what you need to find.

5. Set Up the Equation:
Write the trigonometric equation.

6. Solve:
Use algebra to find the unknown value.

Types of Problems:

Finding Missing Sides:
Given an angle and one side, find another side.

Finding Missing Angles:
Given two sides, find an angle using inverse trig functions.

Angle of Elevation/Depression:
Real-world problems involving looking up or down at an angle.

Example Applications:

Height of Building:
From 100 feet away, the angle of elevation to the top of a building is 30°.
Height = 100 × tan 30° = 100 × (√3/3) ≈ 57.7 feet

Ladder Safety:
A 20-foot ladder leans against a wall at a 75° angle.
Distance from wall = 20 × cos 75° ≈ 5.2 feet

Calculator Usage:
Make sure your calculator is in the correct mode:
- Degree mode for angle measurements in degrees
- Radian mode for angle measurements in radians

Common Mistakes to Avoid:
- Confusing opposite and adjacent sides
- Using wrong trigonometric ratio
- Calculator in wrong mode (degrees vs radians)
- Not labeling triangles clearly
- Forgetting to identify the reference angle

Study Tips for Success:
- Practice identifying sides relative to different angles
- Memorize special angle values
- Work with real objects to visualize problems
- Use mnemonics like SOH CAH TOA
- Check answers for reasonableness

Building Intuition:
- sin θ increases as angle increases (0° to 90°)
- cos θ decreases as angle increases (0° to 90°)
- tan θ increases rapidly as angle approaches 90°
- For complementary angles: sin θ = cos(90° - θ)

This foundation prepares you for the unit circle, trigonometric identities, and applications in calculus and physics!"
    "Introduction to trigonometric ratios, special triangles, and fundamental applications in right triangle geometry."
    ["Master the three basic trigonometric ratios", "Solve right triangle problems using SOH CAH TOA", "Apply trigonometry to real-world situations"])]

/-- The calculus entries (tiers 1) of the Content Synthesizer's static content bank
(`LearningContentGenerator._generate_fallback_content`, learning_content_generator.py
lines 146-1620), transcribed verbatim. -/
def lcgCalculusTemplates : List (Int × ContentTemplate) :=
  [(1, ContentTemplate.mk "Understanding Limits and Continuity"
    "Welcome to calculus - the mathematics of change and motion!

What is Calculus?
Calculus is the study of continuous change. It has two main branches:
- Differential Calculus: Rates of change (derivatives)
- Integral Calculus: Accumulation of quantities (integrals)

The Foundation: Limits

What is a Limit?
A limit describes the value that a function approaches as the input approaches a certain value.

Notation: lim[x→a] f(x) = L
This reads: \"The limit of f(x) as x approaches a equals L\"

Intuitive Understanding:
Imagine walking toward a wall. Even though you never actually touch the wall, you can get arbitrarily close. The limit is like that wall - the value you're approaching.

Types of Limits:

One-Sided Limits:
- Left-hand limit: lim[x→a⁻] f(x) (approaching from the left)
- Right-hand limit: lim[x→a⁺] f(x) (approaching from the right)

For a limit to exist: Left-hand limit = Right-hand limit

Infinite Limits:
When function values grow without bound:
lim[x→a] f(x) = ∞ or lim[x→a] f(x) = -∞

Limits at Infinity:
Behavior of functions as x gets very large:
lim[x→∞] f(x) or lim[x→-∞] f(x)

Finding Limits:

Direct Substitution:
If the function is continuous at the point, simply substitute:
lim[x→2] (x² + 3x - 1) = 2² + 3(2) - 1 = 9

Factoring Method:
For indeterminate forms like 0/0:
lim[x→2] (x² - 4)/(x - 2) = lim[x→2] (x + 2)(x - 2)/(x - 2) = lim[x→2] (x + 2) = 4

Rationalization:
For limits involving square roots:
Multiply by conjugate to eliminate radicals

L'Hôpital's Rule:
For 0/0 or ∞/∞ forms:
lim[x→a] f(x)/g(x) = lim[x→a] f'(x)/g'(x)

Squeeze Theorem:
If g(x) ≤ f(x) ≤ h(x) and lim[x→a] g(x) = lim[x→a] h(x) = L,
then lim[x→a] f(x) = L

Continuity:

Definition of Continuity:
A function f(x) is continuous at x = a if:
1. f(a) exists
2. lim[x→a] f(x) exists  
3. lim[x→a] f(x) = f(a)

Types of Discontinuities:

Removable Discontinuity:
A \"hole\" in the graph that can be \"filled\" by redefining the function at one point.

Jump Discontinuity:
Left and right limits exist but are different.

Infinite Discontinuity:
Function approaches ±∞ at the point.

Continuous Functions:
- Polynomial functions are continuous everywhere
- Rational functions are continuous except where denominator = 0
- Trigonometric functions are continuous on their domains
- Exponential and logarithmic functions are continuous on their domains

Intermediate Value Theorem:
If f is continuous on [a,b] and N is between f(a) and f(b), then there exists c in [a,b] such that f(c) = N.

Applications: This guarantees that continuous functions take on all intermediate values.

Real-World Applications:

Physics:
- Velocity as the limit of average velocity over shrinking time intervals
- Instantaneous rate of change

Economics:
- Marginal cost and revenue as limits of average rates

Engineering:
- Stress analysis and material properties
- Control systems and feedback loops

Biology:
- Population growth rates
- Enzyme kinetics

Practical Examples:

Speed Limit:
If you drive 60 miles in 1 hour, your average speed is 60 mph. But your instantaneous speed at any moment might be different. The speedometer reading is essentially a limit - speed over an infinitesimally small time interval.

Temperature Change:
The rate at which temperature changes throughout the day can be modeled using limits and derivatives.

Problem-Solving Strategy:

1. Identify the Type:
Determine what kind of limit problem you're solving.

2. Try Direct Substitution:
If it works, you're done. If you get 0/0 or ∞/∞, use other methods.

3. Simplify if Possible:
Factor, rationalize, or use algebraic manipulation.

4. Apply Appropriate Technique:
Use the method that best fits the problem structure.

5. Verify Your Answer:
Check that your result makes sense graphically and numerically.

Common Limit Patterns:

Standard Limits:
- lim[x→0] (sin x)/x = 1
- lim[x→∞] (1 + 1/x)ˣ = e
- lim[x→0] (eˣ - 1)/x = 1
- lim[x→0] (ln(1 + x))/x = 1

Polynomial Limits at Infinity:
Determined by the highest degree terms

Rational Function Limits:
Compare degrees of numerator and denominator

Technology and Graphing:
- Use graphing calculators to visualize limit behavior
- Tables of values can approximate limits numerically
- Computer algebra systems can evaluate complex limits

Common Mistakes:
- Assuming a limit exists when it doesn't
- Incorrect application of limit laws
- Confusing limit value with function value
- Not recognizing indeterminate forms

Study Strategies:
- Practice with various function types
- Sketch graphs to visualize limit behavior
- Work with both algebraic and numerical approaches
- Connect limits to real-world scenarios
- Master basic limit patterns

This foundation in limits and continuity is essential for understanding derivatives, integrals, and all advanced calculus concepts!"
    "Master the fundamental concept of limits and continuity as the foundation for all calculus operations and applications."
    ["Evaluate limits using multiple techniques", "Understand and identify continuity", "Apply limit concepts to real-world problems"])]

/-- The Content Synthesizer's full `content_templates` dict, in insertion order. -/
def lcgContentTemplatesFor (learning_style : String) : List (String × List (Int × ContentTemplate)) :=
  [("algebra", lcgAlgebraTemplates learning_style),
   ("geometry", lcgGeometryTemplates),
   ("trigonometry", lcgTrigonometryTemplates),
   ("calculus", lcgCalculusTemplates)]
/-- `PathGeneratorAgent._get_variables_content` (src/backend/agents/path_generator.py), transcribed verbatim:
a base text plus a per-learning-style suffix. -/
def pgVariablesContent (learning_style : String) : String :=
  let base := "Welcome to the world of algebra! Let's explore variables - one of the most important concepts in mathematics.

What is a Variable?
A variable is a letter or symbol that represents an unknown number or a quantity that can change. Think of it as a container that can hold different values.

Why Use Variables?
Variables allow us to:
- Write general mathematical statements
- Solve problems with unknown quantities  
- Create formulas that work for many situations
- Express relationships between quantities"
  if learning_style == "visual" then base ++ "

Visual Examples:
Imagine variables as empty boxes:
[x] + 3 = 7
The box [x] contains some number that makes this equation true.

Picture a balance scale:
Left side: x + 3
Right side: 7
The scale balances when x = 4

Diagram Exercise:
Draw boxes and fill them with different numbers to see how variables work in expressions like 2x + 5."
  else
  if learning_style == "auditory" then base ++ "

Think About It:
Say this out loud: \"x represents a mystery number\"
Now say: \"When I add 3 to my mystery number, I get 7\"
What must the mystery number be?

Discussion Questions:
- How would you explain variables to a friend?
- Can you think of variables in everyday life?
- What's the difference between a variable and a regular number?

Listen and Learn:
Variables are like actors in a play - they can represent different characters (numbers) in different scenes (problems)."
  else
  if learning_style == "reading" then base ++ "

Detailed Explanation:
Variables serve as placeholders in mathematical expressions. The term \"variable\" comes from the word \"vary,\" indicating that the value can change or vary depending on the context.

Key Points to Remember:
1. Variables are typically represented by letters (x, y, z, a, b, c)
2. The same variable in an expression represents the same value throughout
3. Different variables can represent different values
4. Variables can be replaced with actual numbers when their values are known

Written Practice:
Write three different expressions using the variable x. For each expression, explain in words what it means."
  else base ++ "

Hands-On Activities:
1. Use physical objects (coins, blocks) to represent variables
2. Create a \"variable box\" - put different numbers in and see how expressions change
3. Act out word problems by walking through the steps

Interactive Exercise:
Step 1: Pick a number (this is your variable)
Step 2: Add 5 to it
Step 3: Multiply by 2
Step 4: Write this as an expression: 2(x + 5)

Real-World Connection:
Variables are like recipes - the ingredients (numbers) can change, but the process (expression) stays the same."

/-- `PathGeneratorAgent._get_expressions_content` (src/backend/agents/path_generator.py), transcribed verbatim:
a base text plus a per-learning-style suffix. -/
def pgExpressionsContent (learning_style : String) : String :=
  let base := "Algebraic expressions are combinations of variables, numbers, and operations that represent mathematical relationships.

Components of Expressions:
- Terms: Parts separated by + or - signs
- Coefficients: Numbers multiplied by variables  
- Constants: Numbers without variables
- Like terms: Terms with the same variable and power

Basic Operations:
- Addition: x + 5
- Subtraction: x - 3
- Multiplication: 4x or 4 × x
- Division: x/2 or x ÷ 2"
  if learning_style == "visual" then base ++ "

Visual Breakdown:
In the expression 3x + 2y - 5:
[3x] [+] [2y] [-] [5]
 ↓     ↓    ↓     ↓
term  op  term   constant

Color-Code Your Work:
- Variables in blue
- Coefficients in red  
- Constants in green
- Operations in black"
  else
  if learning_style == "auditory" then base ++ "

Say It Out Loud:
3x + 2y - 5 reads as:
\"Three x plus two y minus five\"

Rhythm and Patterns:
Clap while saying expressions to remember the pattern:
CLAP-x CLAP-plus CLAP-five
(coefficient)(variable)(operation)(number)

Verbal Practice:
Take turns reading expressions aloud and explaining what each part means."
  else base ++ "

Detailed Analysis:
Expressions are like mathematical sentences. Each part has a specific role, similar to how words have roles in grammar.

Practice Building Expressions:
1. Start with a variable: x
2. Add a coefficient: 3x
3. Add another term: 3x + 7
4. Add more complexity: 3x + 7 - 2y

Step-by-Step Approach:
Break down complex expressions into smaller, manageable parts before trying to understand the whole."

/-- `PathGeneratorAgent._get_linear_intro_content` (src/backend/agents/path_generator.py), transcribed verbatim:
a base text plus a per-learning-style suffix. -/
def pgLinearIntroContent (learning_style : String) : String :=
  let base := "Linear equations are the foundation of algebra. They create straight lines when graphed and have many real-world applications.

Definition:
A linear equation is an equation where the highest power of any variable is 1.

Standard Form: ax + b = c
Where a, b, and c are numbers, and x is the variable.

Examples of Linear Equations:
- x + 3 = 7
- 2y - 5 = 11  
- 3z + 8 = 20
- 4w = 16"
  if learning_style == "visual" then base ++ "

Graph Visualization:
Linear equations create straight lines on a coordinate plane.

Key Visual Features:
- Always a straight line
- Has a constant slope (steepness)
- Crosses the y-axis at one point
- May or may not cross the x-axis

Identify Linear vs Non-Linear:
✓ Linear: x + 2 = 5
✗ Non-Linear: x² + 2 = 5 (has x²)
✗ Non-Linear: 1/x = 5 (has x in denominator)"
  else
  if learning_style == "auditory" then base ++ "

Remember the Rule:
\"If the variable has power one, then linear is what we've done!\"

Talk Through Examples:
Say each equation and identify why it's linear:
- \"x plus three equals seven\" - x has power 1
- \"Two y minus five equals eleven\" - y has power 1

Listen for Keywords:
Linear equations often come from phrases like:
\"How many...\", \"What number...\", \"Find the value...\"
"
  else base ++ "

Systematic Identification:
To determine if an equation is linear, check:
1. Are all variables raised to the first power?
2. Are variables not in denominators?
3. Are variables not inside radicals?
4. Are variables not inside other functions?

If all answers are yes, the equation is linear.

Classification Practice:
Create a chart with \"Linear\" and \"Non-Linear\" columns and sort various equations."

/-- `PathGeneratorAgent._get_linear_solving_content` (src/backend/agents/path_generator.py), transcribed verbatim:
a base text plus a per-learning-style suffix. -/
def pgLinearSolvingContent (learning_style : String) : String :=
  let base := "Solving linear equations means finding the value of the variable that makes the equation true.

The Golden Rule: Balance
Whatever you do to one side of the equation, you must do to the other side.

Basic Steps:
1. Simplify both sides if needed
2. Get variable terms on one side
3. Get constants on the other side
4. Divide to get the variable alone
5. Check your answer

Example: 2x + 3 = 11
Step 1: 2x + 3 - 3 = 11 - 3
Step 2: 2x = 8
Step 3: x = 4"
  if learning_style == "visual" then base ++ "

Balance Scale Method:
Picture a balance scale with the equation:

[2x + 3] = [11]

When you subtract 3 from both sides:
[2x] = [8]

When you divide both sides by 2:
[x] = [4]

Visual Check:
Substitute back: 2(4) + 3 = 8 + 3 = 11 ✓"
  else
  if learning_style == "auditory" then base ++ "

Verbal Strategy:
Say each step out loud:
\"I have 2x plus 3 equals 11\"
\"I subtract 3 from both sides\"
\"Now I have 2x equals 8\"  
\"I divide both sides by 2\"
\"So x equals 4\"

Memory Phrase:
\"Same operation, both sides, always applies\"

Talk Through Your Work:
Explain each step to yourself or a study partner."
  else base ++ "

Systematic Approach:
Follow this checklist for every linear equation:

□ Write the equation clearly
□ Identify the variable to solve for
□ Plan your steps before starting
□ Show each step with reasoning
□ Check your final answer
□ Verify the answer makes sense

Common Patterns:
- ax = b → x = b/a
- x + a = b → x = b - a  
- ax + b = c → x = (c - b)/a

Practice Template:
Original equation: ___________
Step 1: ___________
Step 2: ___________
Final answer: x = ___________
Check: ___________"

/-- `PathGeneratorAgent._get_shapes_content` (src/backend/agents/path_generator.py), transcribed verbatim:
a base text plus a per-learning-style suffix. -/
def pgShapesContent (learning_style : String) : String :=
  let base := "Geometry begins with understanding basic shapes and their properties.

Fundamental Elements:
- Point: A location with no size
- Line: Extends infinitely in both directions
- Line Segment: Part of a line with two endpoints
- Ray: Part of a line with one endpoint

Basic 2D Shapes:
- Triangle: 3 sides, 3 angles
- Rectangle: 4 sides, 4 right angles
- Square: 4 equal sides, 4 right angles
- Circle: All points equal distance from center"
  if learning_style == "visual" then base ++ "

Shape Recognition:
Look around your environment and identify:
- Rectangular windows and doors
- Circular clocks and wheels
- Triangular roof sections
- Square floor tiles

Visual Memory Aid:
Create mental pictures:
- Triangle = mountain peak
- Rectangle = book cover
- Circle = wheel
- Square = window pane"
  else
  if learning_style == "auditory" then base ++ "

Shape Songs and Rhymes:
\"Triangle has three sides, three corners too
Rectangle's four sides, but square's sides are new
Circle goes around and around it goes
That's how our shape identification grows!\"

Verbal Descriptions:
Practice describing shapes without showing them:
\"I'm thinking of a shape with four equal sides and four right angles...\"

Discussion Topics:
Talk about where you see each shape in daily life."
  else base ++ "

Shape Classification System:
Organize shapes by properties:

By Number of Sides:
- 3 sides: Triangle
- 4 sides: Quadrilateral  
- More than 4: Polygon

By Angle Types:
- All right angles: Rectangle, Square
- Various angles: Triangle, Parallelogram

Measurement Activities:
Use rulers and protractors to measure real objects and classify their shapes."

/-- `PathGeneratorAgent._get_trig_intro_content` (src/backend/agents/path_generator.py), transcribed verbatim:
a base text plus a per-learning-style suffix. -/
def pgTrigIntroContent (learning_style : String) : String :=
  let base := "Trigonometry is the study of relationships between angles and sides in triangles.

The Right Triangle Foundation:
Trigonometry starts with right triangles (triangles with a 90° angle).

Triangle Parts:
- Hypotenuse: Longest side (opposite the right angle)
- Opposite: Side across from the angle we're studying
- Adjacent: Side next to the angle we're studying

The Big Three Ratios:
- Sine (sin): opposite/hypotenuse
- Cosine (cos): adjacent/hypotenuse  
- Tangent (tan): opposite/adjacent

Memory Device: SOH CAH TOA"
  if learning_style == "visual" then base ++ "

Visual Triangle Setup:
Draw a right triangle and label:
    /|
   / |
  /  | opposite
 /   |
/___|
adjacent

Color Coding:
- Hypotenuse in red
- Opposite in blue  
- Adjacent in green

Visual SOH CAH TOA:
Create a diagram with the ratios clearly labeled for each trigonometric function."
  else
  if learning_style == "auditory" then base ++ "

SOH CAH TOA Chant:
\"SOH CAH TOA, helps me every day!
Sine is opposite over hypotenuse, hip hip hooray!
Cosine is adjacent over hypotenuse, that's the way!
Tangent is opposite over adjacent, so they say!\"

Pronunciation Guide:
- Sine: \"sign\"
- Cosine: \"co-sign\"  
- Tangent: \"tan-jent\"

Verbal Practice:
Say the ratios out loud while pointing to triangle parts."
  else base ++ "

Systematic Setup:
For any right triangle problem:

Step 1: Draw and label the triangle
Step 2: Identify the given angle
Step 3: Label opposite, adjacent, hypotenuse relative to that angle
Step 4: Choose the appropriate ratio
Step 5: Set up the equation
Step 6: Solve

Reference Card:
Create a study card with:
- SOH CAH TOA
- Sample triangle with labels
- Common angle values (30°, 45°, 60°)"

/-- `PathGeneratorAgent._get_limits_content` (src/backend/agents/path_generator.py), transcribed verbatim:
a base text plus a per-learning-style suffix. -/
def pgLimitsContent (learning_style : String) : String :=
  let base := "Limits are the foundation of calculus, describing what happens to function values as inputs approach a certain point.

What is a Limit?
A limit describes the value that a function approaches as the input gets arbitrarily close to some number.

Notation: lim[x→a] f(x) = L
Reads: \"The limit of f(x) as x approaches a equals L\"

Key Concept:
We care about what happens NEAR a point, not necessarily AT the point.

Example:
As x gets closer to 2, what does x² approach?
When x = 1.9: (1.9)² = 3.61
When x = 1.99: (1.99)² = 3.9601  
When x = 2.01: (2.01)² = 4.0401
When x = 2.1: (2.1)² = 4.41

The limit is 4."
  if learning_style == "visual" then base ++ "

Graph Visualization:
Picture a graph of y = x²:
- As x approaches 2 from the left, y approaches 4
- As x approaches 2 from the right, y approaches 4
- The function \"aims\" toward the point (2, 4)

Table Method:
Create tables showing x values getting closer to the target and observe where y values are heading.

Graphical Approach:
Use graphing tools to zoom in on the point of interest."
  else
  if learning_style == "auditory" then base ++ "

Think Out Loud:
\"As x gets closer and closer to 2, what does x-squared get closer and closer to?\"

Verbal Explanation:
Practice explaining limits to someone else:
\"Imagine walking toward a wall - you get closer and closer but never quite touch it. Limits are like that wall.\"

Discussion Method:
Talk through limit problems step by step, explaining your reasoning at each stage."
  else base ++ "

Systematic Limit Evaluation:

Method 1: Direct Substitution
If the function is continuous at the point, substitute directly.

Method 2: Table of Values  
Create a table with x-values approaching the target from both sides.

Method 3: Algebraic Manipulation
Simplify the expression to remove problematic forms.

Practice Framework:
1. Identify the limit to evaluate
2. Try direct substitution
3. If that fails, use algebraic techniques
4. Verify with a table or graph
5. State the final answer clearly"

/-- The static content bank of `PathGeneratorAgent._generate_fallback_content`
(src/backend/agents/path_generator.py lines 242-295), transcribed verbatim; the content
of each entry is produced by the per-style helper functions above. -/
def pgContentTemplatesFor (learning_style : String) : List (String × List (Int × ContentTemplate)) :=
  [("variables and expressions",
    [(1, ContentTemplate.mk "Understanding Variables in Algebra"
       (pgVariablesContent learning_style)
       "Learn what variables are and how they work in algebraic expressions."
       ["Define what a variable represents", "Identify variables in expressions", "Use variables in real-world contexts"]),
     (2, ContentTemplate.mk "Working with Algebraic Expressions"
       (pgExpressionsContent learning_style)
       "Master the fundamentals of creating and manipulating algebraic expressions."
       ["Create algebraic expressions", "Simplify basic expressions", "Translate word problems to expressions"])]),
   ("linear equations",
    [(1, ContentTemplate.mk "Introduction to Linear Equations"
       (pgLinearIntroContent learning_style)
       "Discover the basics of linear equations and their properties."
       ["Identify linear equations", "Understand the structure of linear equations", "Recognize linear vs non-linear"]),
     (2, ContentTemplate.mk "Solving Linear Equations"
       (pgLinearSolvingContent learning_style)
       "Learn step-by-step methods to solve linear equations effectively."
       ["Apply balance principle", "Solve multi-step equations", "Check solutions"])]),
   ("basic shapes and properties",
    [(1, ContentTemplate.mk "Fundamental Geometric Shapes"
       (pgShapesContent learning_style)
       "Explore the basic building blocks of geometry: points, lines, and shapes."
       ["Identify basic geometric shapes", "Understand shape properties", "Classify shapes by attributes"])]),
   ("introduction to trigonometry",
    [(1, ContentTemplate.mk "Trigonometry Foundations"
       (pgTrigIntroContent learning_style)
       "Begin your journey into trigonometry with right triangles and ratios."
       ["Understand trigonometric ratios", "Apply SOH CAH TOA", "Solve right triangle problems"])]),
   ("limits and continuity",
    [(1, ContentTemplate.mk "Understanding Limits"
       (pgLimitsContent learning_style)
       "Grasp the fundamental concept of limits in calculus."
       ["Define limits conceptually", "Evaluate basic limits", "Understand limit notation"])])]

/-- The fields `_generate_single_content` reads from a successfully parsed
JSON object; each may be absent (`.get` with a default). -/
structure ParsedContent where
  title : Option String
  content : Option String
  summary : Option String
  learning_objectives : Option (List String)
  estimated_duration : Option Int
deriving DecidableEq

/-- The tier lookup of the Content Synthesizer's fallback:
`templates.get(difficulty, templates[1])`.  Every bank of
`lcgContentTemplatesFor` holds tier 1, so the final `getD` default is
unreachable (Python would raise `KeyError` there). -/
def lcgLookupTier (templates : List (Int × ContentTemplate)) (difficulty : Int) :
    ContentTemplate :=
  match templates.lookup difficulty with
  | some t => t
  | none => (templates.lookup 1).getD (ContentTemplate.mk "" "" "" [])

/-- `LearningContentGenerator._generate_fallback_content`
(learning_content_generator.py lines 143-1637): the bank is keyed by
`topic.lower().split()[0]` — the first word of the lowercased topic — with
unknown keys defaulting to the algebra bank, then by difficulty tier
defaulting to tier 1.  A topic without any word makes `split()[0]` raise
`IndexError` (`none`). -/
def generate_fallback_content_lcg (topic resource_type : String) (difficulty : Int)
    (learning_style : String) (sequence_position : Nat) : Option LearningContent :=
  (pySplitWords (pyToLower topic)).head?.map (fun firstWord =>
    let templates := ((lcgContentTemplatesFor learning_style).lookup firstWord).getD
      (lcgAlgebraTemplates learning_style)
    let template_data := lcgLookupTier templates difficulty
    { id := "", title := template_data.title, type := resource_type,
      content := template_data.content, summary := template_data.summary,
      difficulty_level := difficulty, learning_style := learning_style, topic := topic,
      estimated_duration := 15, prerequisites := [],
      learning_objectives := template_data.objectives })

/-- `LearningContentGenerator._generate_single_content`
(learning_content_generator.py lines 58-125).  `oracle` is the outcome of the
generation call: `some pc` a successfully parsed JSON object, `none` any
failure (exception, empty response, no extractable JSON, unparsable JSON) —
every failure path ends in `_generate_fallback_content` with these same
arguments, and an `IndexError` escaping the fallback propagates (`none`). -/
def generate_single_content (topic resource_type : String) (difficulty : Int)
    (learning_style : String) (sequence_position : Nat) (total_sequence : Nat)
    (oracle : Option ParsedContent) : Option LearningContent :=
  match oracle with
  | some pc =>
    some { id := "",
           title := pc.title.getD (topic ++ " - Part " ++ toString sequence_position),
           type := resource_type, content := pc.content.getD "",
           summary := pc.summary.getD "", difficulty_level := difficulty,
           learning_style := learning_style, topic := topic,
           estimated_duration := pc.estimated_duration.getD 15, prerequisites := [],
           learning_objectives := pc.learning_objectives.getD [] }
  | none =>
    generate_fallback_content_lcg topic resource_type difficulty learning_style
      sequence_position

/-- `LearningContentGenerator.generate_learning_sequence`
(learning_content_generator.py lines 18-44): `num_resources` contents at
difficulty `min(5, knowledge_level + i // 2)` and a resource type cycling
through the style's preferred list.  A dataclass instance is always truthy, so
`if content:` appends every result; `none` models the one exception path (a
wordless topic whose generation fell back).  (The concrete type lists all have
4 entries, so the `getD` default of the cyclic index is unreachable.) -/
def generate_learning_sequence (profile : LearnerProfile) (topic : String)
    (num_resources : Nat) (oracle : Nat → Option ParsedContent) :
    Option (List LearningContent) :=
  let resource_types := lcgResourceTypesForStyle profile.learning_style
  (List.range num_resources).mapM (fun i =>
    generate_single_content topic (resource_types.getD (i % resource_types.length) "")
      (min 5 (profile.knowledge_level + ((i / 2 : Nat) : Int))) profile.learning_style
      (i + 1) num_resources (oracle i))

/-- The empty parsed JSON object (every field missing): a convenient concrete
generation outcome. -/
def emptyParsed : ParsedContent :=
  { title := none, content := none, summary := none, learning_objectives := none,
    estimated_duration := none }

/-- The tier lookup of the Path Planner's fallback:
`templates.get(difficulty, templates.get(1, templates[list(templates.keys())[0]]))`. -/
def pgLookupTier (templates : List (Int × ContentTemplate)) (difficulty : Int) :
    ContentTemplate :=
  match templates.lookup difficulty with
  | some t => t
  | none =>
    match templates.lookup 1 with
    | some t => t
    | none => (templates.headD (0, ContentTemplate.mk "" "" "" [])).2

/-- The key match of the Path Planner's fallback bank: the whole key as a
substring of the lowercased topic, or any word of the key as a substring. -/
def pgKeyMatches (key topic_key : String) : Bool :=
  pyInStr key topic_key || (pySplitWords key).any (fun word => pyInStr word topic_key)

/-- The first bank entry whose key matches the topic (the `for ... break` loop
of path_generator.py lines 301-304). -/
def pgFindTemplates (learning_style topic_key : String) :
    Option (String × List (Int × ContentTemplate)) :=
  (pgContentTemplatesFor learning_style).find? (fun kv => pgKeyMatches kv.1 topic_key)

/-- `PathGeneratorAgent._generate_fallback_content` (path_generator.py lines
235-327): a fuzzy word-matched bank lookup, and — when no key matches — a
default templated stub naming the requested topic. -/
def generate_fallback_content_pg (topic resource_type : String) (difficulty : Int)
    (learning_style : String) (sequence_position : Nat) : LearningContent :=
  let topic_key := pyToLower topic
  let template_data :=
    match pgFindTemplates learning_style topic_key with
    | some kv => pgLookupTier kv.2 difficulty
    | none =>
      ContentTemplate.mk ("Learning " ++ topic)
        ("This lesson covers the fundamentals of " ++ topic ++
          ". Content is tailored for " ++ learning_style ++ " learners.")
        ("Introduction to " ++ topic ++ " concepts.")
        ["Understand " ++ topic, "Apply " ++ topic ++ " concepts"]
  { id := "", title := template_data.title, type := resource_type,
    content := template_data.content, summary := template_data.summary,
    difficulty_level := difficulty, learning_style := learning_style, topic := topic,
    estimated_duration := 15, prerequisites := [],
    learning_objectives := template_data.objectives }

/-! ## Background materialization (`agents/orchestrator.py
_start_background_generation`) -/

/-- A `learning_resources` document as the background task reads and writes it
(the unobserved timestamps and learner id are omitted). -/
structure ResourceDoc where
  id : String
  title : String
  type : String
  content : String
  summary : String
  difficulty_level : Int
  learning_style : String
  topic : String
  estimated_duration : Int
  learning_objectives : List String
  status : String
deriving DecidableEq

/-- `find_one({'id': rid})`: the first document with the given id. -/
def findOne (store : List ResourceDoc) (rid : String) : Option ResourceDoc :=
  store.find? (fun r => r.id == rid)

/-- `update_one({'id': rid}, {'$set': ...})`: rewrite the first document with
the given id. -/
def updateFirst : List ResourceDoc → String → (ResourceDoc → ResourceDoc) → List ResourceDoc
  | [], _, _ => []
  | r :: rs, rid, f => if r.id == rid then f r :: rs else r :: updateFirst rs rid f

/-- The `$set` update of a successfully generated resource (orchestrator.py
lines 195-208): new title/content/summary/objectives/duration and
`status = 'ready'`. -/
def applyContentUpdate (c : LearningContent) (r : ResourceDoc) : ResourceDoc :=
  { r with title := c.title, content := c.content, summary := c.summary,
           learning_objectives := c.learning_objectives,
           estimated_duration := c.estimated_duration, status := "ready" }

/-- One iteration of the background task's loop over the path's resource ids
(orchestrator.py lines 177-216).  A resource that is absent or no longer
`generating` is skipped.  `_generate_single_content` always returns a (truthy)
dataclass, so the `if detailed_content:` else-branch (mark ready with no
content) is dead code; the one failure mode is the exception of a wordless
topic, which aborts the whole task (`none` — the outer `try` only logs it). -/
def backgroundStep (oracle : String → Option ParsedContent) (resource_ids : List String)
    (store : List ResourceDoc) (rid : String) : Option (List ResourceDoc) :=
  match findOne store rid with
  | none => some store
  | some r =>
    if r.status == "generating" then
      match generate_single_content r.topic r.type r.difficulty_level r.learning_style
          (resource_ids.indexOf rid + 1) resource_ids.length (oracle rid) with
      | some c => some (updateFirst store rid (applyContentUpdate c))
      | none => none
    else some store

/-- The background task's loop, processing the pending ids in path order over
an evolving store. -/
def backgroundLoop (oracle : String → Option ParsedContent) (resource_ids : List String) :
    List String → List ResourceDoc → Option (List ResourceDoc)
  | [], store => some store
  | rid :: rest, store =>
    match backgroundStep oracle resource_ids store rid with
    | some store2 => backgroundLoop oracle resource_ids rest store2
    | none => none

/-- The body of `_start_background_generation`'s `generate_content` thread for
an existing path with the given resource ids (orchestrator.py lines 163-226):
`some store'` is a run to completion, `none` an aborted run. -/
def background_generate_content (oracle : String → Option ParsedContent)
    (resource_ids : List String) (store : List ResourceDoc) :
    Option (List ResourceDoc) :=
  backgroundLoop oracle resource_ids resource_ids store

/-- The status of the first document with the given id. -/
def statusOf (store : List ResourceDoc) (rid : String) : Option String :=
  (findOne store rid).map (fun r => r.status)

/-! ## Profile intake normalization (`agents/orchestrator.py
process_new_learner`) -/

/-- A loosely-typed JSON value as the intake route receives one. -/
inductive PyVal where
  | int (n : Int)
  | str (s : String)
  | float (q : ℚ)
  | boolean (b : Bool)
  | list (xs : List PyVal)
  | dict
  | none

/-- Whether a `PyVal` is a Python `int` (what `isinstance(v, int)` would
accept, Python's bool-is-int subtlety aside). -/
def PyVal.isIntVal : PyVal → Bool
  | PyVal.int _ => true
  | _ => false

/-- Whether a `PyVal` is a Python `list`. -/
def PyVal.isListVal : PyVal → Bool
  | PyVal.list _ => true
  | _ => false

/-- The `knowledge_level` normalization of `process_new_learner`
(orchestrator.py lines 22-28): `profile_data.get('knowledge_level', 1)`, then
`int(...)` with default 1 — applied only when the value is a string.  Any
non-string value passes through unchanged. -/
def normalize_knowledge_level (v : Option PyVal) : PyVal :=
  match v with
  | Option.none => PyVal.int 1
  | some (PyVal.str s) =>
    match parsePyInt s with
    | some n => PyVal.int n
    | Option.none => PyVal.int 1
  | some other => other

/-- The `weak_areas` normalization of `process_new_learner` (orchestrator.py
lines 30-33): `profile_data.get('weak_areas', [])`, replaced by `[]` unless it
is a list. -/
def normalize_weak_areas (v : Option PyVal) : PyVal :=
  match v with
  | some (PyVal.list xs) => PyVal.list xs
  | _ => PyVal.list []
/-! ## Concrete fixtures used by witnesses and counterexamples -/

/-- A raw candidate whose four options are all the same string — a shape the
upstream model can emit and the validation does not reject. -/
def dupRaw : RawQuestion :=
  { question := some "Which value equals 2 + 2?",
    options := some (PyOptionsVal.strs ["4", "4", "4", "4"]),
    correct_answer := some "4", topic := some "arithmetic" }

/-- A 5-question pretest on topic geometry with 2 correct and 3 wrong answers,
with the 0-or-100 per-question scores `evaluate_quiz_response` assigns. -/
def pretestExample : List QuizResult :=
  [{ is_correct := true, feedback := "", topic := "geometry", score := 100 },
   { is_correct := true, feedback := "", topic := "geometry", score := 100 },
   { is_correct := false, feedback := "", topic := "geometry", score := 0 },
   { is_correct := false, feedback := "", topic := "geometry", score := 0 },
   { is_correct := false, feedback := "", topic := "geometry", score := 0 }]

/-- C6 witness fixture: the sequence produced for a visual level-1 learner on
topic algebra when every generation call parses successfully with an empty
JSON object. -/
def wSeqProfile : LearnerProfile :=
  { id := "L1", name := "Dana", learning_style := "visual", knowledge_level := 1,
    subject := "algebra", weak_areas := [] }

/-- C3 witness fixture: a one-resource store whose resource is still
generating. -/
def wStore : List ResourceDoc :=
  [{ id := "r1", title := "algebra - Introduction", type := "lesson",
     content := "Loading comprehensive content for algebra...",
     summary := "Learn the fundamentals of algebra", difficulty_level := 1,
     learning_style := "visual", topic := "algebra", estimated_duration := 15,
     learning_objectives := ["Understand algebra concepts"], status := "generating" }]

/-! ## General lemmas -/

/-- A value found by an association-list lookup is one of the stored values. -/
theorem lookup_mem_values {α β : Type} [BEq α] :
    ∀ (l : List (α × β)) (k : α) (v : β), l.lookup k = some v → v ∈ l.map Prod.snd := by
  intro l
  induction l with
  | nil => intro k v h; simp [List.lookup] at h
  | cons p ps ih =>
    intro k v h
    rw [List.lookup] at h
    by_cases hk : (k == p.1) = true
    · simp only [hk] at h
      simp only [Option.some.injEq] at h
      subst h
      simp
    · simp only [Bool.not_eq_true] at hk
      simp only [hk] at h
      simpa using Or.inr (ih k v h)

/-- Indexing a nonempty list at a cyclic index lands in the list. -/
theorem getD_mod_mem {α : Type} (l : List α) (h : l ≠ []) (i : Nat) (d : α) :
    l.getD (i % l.length) d ∈ l := by
  have hlen : 0 < l.length := List.length_pos.mpr h
  have hlt : i % l.length < l.length := Nat.mod_lt _ hlen
  rw [List.getD_eq_getElem l d hlt]
  apply List.getElem_mem

/-! ## The static question bank (C1, C7, C10 groundwork) -/

/-- Every entry of every topic's question bank has exactly 4 pairwise-distinct
options. -/
theorem bank_entries_ok :
    ∀ t ∈ algebraQuestionBank ++ calculusQuestionBank ++ geometryQuestionBank ++
        trigonometryQuestionBank,
      t.2.length = 4 ∧ t.2.Nodup := by decide

/-- The per-topic bank is always one of the four authored banks. -/
theorem templatesForTopic_cases (topic : String) :
    templatesForTopic topic = algebraQuestionBank ∨
    templatesForTopic topic = calculusQuestionBank ∨
    templatesForTopic topic = geometryQuestionBank ∨
    templatesForTopic topic = trigonometryQuestionBank := by
  unfold templatesForTopic
  cases h : questionTemplates.lookup (pyToLower topic) with
  | none => simp
  | some v =>
    have hv := lookup_mem_values _ _ _ h
    simp only [questionTemplates, List.map_cons, List.map_nil, List.mem_cons,
      List.not_mem_nil, or_false] at hv
    simp only [Option.getD_some]
    rcases hv with rfl | rfl | rfl | rfl <;> simp

/-- Every entry of the per-topic bank has 4 distinct options. -/
theorem templatesForTopic_entry_ok (topic : String) (t : String × List String)
    (ht : t ∈ templatesForTopic topic) : t.2.length = 4 ∧ t.2.Nodup := by
  apply bank_entries_ok
  rcases templatesForTopic_cases topic with h | h | h | h <;> rw [h] at ht <;> simp [ht]

/-- The per-topic bank is never empty. -/
theorem templatesForTopic_ne_nil (topic : String) : templatesForTopic topic ≠ [] := by
  rcases templatesForTopic_cases topic with h | h | h | h <;> rw [h] <;> decide

/-- Both question constructors take their entry's options verbatim and use the
first option as the correct answer. -/
theorem basic_question_shape (topic : String) (difficulty : Int) (t : String × List String)
    (q : QuizQuestion) (hq : q = plainQuestion topic difficulty t ∨
      q = advancedQuestion topic difficulty t) :
    q.options = t.2 ∧ q.correct_answer = t.2.headD "" := by
  rcases hq with h | h <;> subst h <;>
    simp [plainQuestion, advancedQuestion]

/-- Every question of `generate_basic_questions` is built (as a plain or an
`Advanced:` question) from some entry of the per-topic bank. -/
theorem basic_questions_from_bank (topic : String) (difficulty : Int) (count : Nat)
    (q : QuizQuestion) (hq : q ∈ generate_basic_questions topic difficulty count) :
    ∃ t ∈ templatesForTopic topic,
      q = plainQuestion topic difficulty t ∨ q = advancedQuestion topic difficulty t := by
  unfold generate_basic_questions at hq
  simp only at hq
  have hq' := List.mem_of_mem_take hq
  rcases List.mem_append.mp hq' with h | h
  · rcases List.mem_map.mp h with ⟨t, ht, rfl⟩
    exact ⟨t, List.mem_of_mem_take ht, Or.inl rfl⟩
  · rcases List.mem_map.mp h with ⟨j, _, rfl⟩
    exact ⟨_, getD_mod_mem _ (templatesForTopic_ne_nil topic) _ _, Or.inr rfl⟩

/-- `generate_basic_questions` always returns exactly `count` questions. -/
theorem basic_questions_length (topic : String) (difficulty : Int) (count : Nat) :
    (generate_basic_questions topic difficulty count).length = count := by
  unfold generate_basic_questions
  simp only [List.length_take, List.length_append, List.length_map, List.length_range]
  omega

/-- Shape of every question `generate_basic_questions` returns: 4 distinct
options, the first of which is the correct answer. -/
theorem basic_questions_props (topic : String) (difficulty : Int) (count : Nat)
    (q : QuizQuestion) (hq : q ∈ generate_basic_questions topic difficulty count) :
    q.options.length = 4 ∧ q.options.Nodup ∧ q.options.head? = some q.correct_answer := by
  rcases basic_questions_from_bank topic difficulty count q hq with ⟨t, ht, hshape⟩
  rcases basic_question_shape topic difficulty t q hshape with ⟨hopt, hcorr⟩
  rcases templatesForTopic_entry_ok topic t ht with ⟨hlen, hnd⟩
  have hne : t.2 ≠ [] := by
    intro h0
    rw [h0] at hlen
    simp at hlen
  refine ⟨hopt ▸ hlen, hopt ▸ hnd, ?_⟩
  rw [hopt, hcorr]
  cases h : t.2 with
  | nil => exact absurd h hne
  | cons a l => simp [h, List.headD]

/-! ## The AI generation path (C1, C7 groundwork) -/

/-- Every question the per-candidate validation accepts has exactly 4 options
and a correct answer among them. -/
theorem validateQuestion_props (topicArg : String) (difficulty : Int) (a : RawQuestion)
    (q : QuizQuestion) (h : validateQuestion topicArg difficulty a = some q) :
    q.options.length = 4 ∧ q.correct_answer ∈ q.options := by
  unfold validateQuestion at h
  rcases a with ⟨qt, opts, ca, tp⟩
  cases qt with
  | none => simp at h
  | some qtext =>
    cases opts with
    | none => simp at h
    | some ov =>
      cases ov with
      | nonList => simp at h
      | strs xs =>
        cases ca with
        | none => simp at h
        | some cav =>
          simp only at h
          by_cases hlen : 4 ≤ xs.length
          · rw [if_pos hlen] at h
            simp only [Option.some.injEq] at h
            subst h
            simp only
            constructor
            · rw [List.length_take]
              exact Nat.min_eq_left hlen
            · by_cases hmem : (xs.take 4).contains cav = true
              · rw [if_pos hmem]
                exact List.mem_of_elem_eq_true hmem
              · rw [if_neg hmem]
                have hlen4 : (xs.take 4).length = 4 := by
                  rw [List.length_take]; exact Nat.min_eq_left hlen
                cases hx : xs.take 4 with
                | nil => rw [hx] at hlen4; simp at hlen4
                | cons b l => simp [hx, List.headD]
          · rw [if_neg hlen] at h
            simp at h

/-- A successful generation attempt yields exactly `count` validated
questions. -/
theorem attemptQuestions_props (topicArg : String) (difficulty : Int) (count : Nat)
    (att : Option (List RawQuestion)) (qs : List QuizQuestion)
    (h : attemptQuestions topicArg difficulty count att = some qs) :
    qs.length = count ∧
    ∀ q ∈ qs, q.options.length = 4 ∧ q.correct_answer ∈ q.options := by
  unfold attemptQuestions at h
  cases att with
  | none => simp at h
  | some data =>
    simp only at h
    by_cases hc : count ≤ ((data.take count).filterMap (validateQuestion topicArg difficulty)).length
    · rw [if_pos hc] at h
      simp only [Option.some.injEq] at h
      subst h
      constructor
      · rw [List.length_take]
        exact Nat.min_eq_left hc
      · intro q hq
        have hq' := List.mem_of_mem_take hq
        rcases List.mem_filterMap.mp hq' with ⟨a, _, ha⟩
        exact validateQuestion_props topicArg difficulty a q ha
    · rw [if_neg hc] at h
      simp at h

/-- The retry loop only returns what a successful attempt produced. -/
theorem retryLoop_props (topicArg : String) (difficulty : Int) (count : Nat) :
    ∀ (l : List (Option (List RawQuestion))) (qs : List QuizQuestion),
      retryLoop topicArg difficulty count l = some qs →
      qs.length = count ∧
      ∀ q ∈ qs, q.options.length = 4 ∧ q.correct_answer ∈ q.options := by
  intro l
  induction l with
  | nil => intro qs h; simp [retryLoop] at h
  | cons a rest ih =>
    intro qs h
    rw [retryLoop] at h
    cases ha : attemptQuestions topicArg difficulty count a with
    | some qs' =>
      rw [ha] at h
      simp only [Option.some.injEq] at h
      subst h
      exact attemptQuestions_props topicArg difficulty count a _ ha
    | none =>
      rw [ha] at h
      exact ih qs h

/-- Shape of everything `generate_quiz_questions` can return, over every
sequence of gateway outcomes. -/
theorem generate_quiz_questions_props (topic : String) (difficulty : Int) (count : Nat)
    (attempts : List (Option (List RawQuestion))) :
    (generate_quiz_questions topic difficulty count attempts).length = count ∧
    ∀ q ∈ generate_quiz_questions topic difficulty count attempts,
      q.options.length = 4 ∧ q.correct_answer ∈ q.options := by
  unfold generate_quiz_questions
  cases h : retryLoop topic difficulty count (attempts.take 3) with
  | some qs => exact retryLoop_props topic difficulty count _ qs h
  | none =>
    refine ⟨basic_questions_length topic difficulty count, ?_⟩
    intro q hq
    rcases basic_questions_props topic difficulty count q hq with ⟨h4, _, hh⟩
    exact ⟨h4, List.mem_of_mem_head? hh⟩
/-! ## Claim C1: the Quiz Synthesizer's output contract -/

/-- C1.  For every topic, difficulty, count and sequence of gateway outcomes,
`generate_quiz_questions` returns exactly `count` questions, each with exactly
4 options and `correct_answer` among its options.  Totality of the definition
over all outcome sequences is the no-exception-escapes guarantee: failed or
insufficient attempts are retried (at most 3) and then degrade to the static
per-topic bank. -/
theorem quiz_synthesizer_contract (topic : String) (difficulty : Int) (count : Nat)
    (attempts : List (Option (List RawQuestion))) :
    (generate_quiz_questions topic difficulty count attempts).length = count ∧
    ∀ q ∈ generate_quiz_questions topic difficulty count attempts,
      q.options.length = 4 ∧ q.correct_answer ∈ q.options :=
  generate_quiz_questions_props topic difficulty count attempts

/-! ## Claim C7: option uniqueness -/

/-- C7 counterexample.  A generated quiz can contain a question whose 4
options are not pairwise distinct: the AI path truncates to 4 options and
checks membership of the correct answer, but never checks uniqueness. -/
theorem quiz_question_duplicate_options_cex :
    ∃ q ∈ generate_quiz_questions "algebra" 2 1 [some [dupRaw]], ¬ q.options.Nodup := by
  decide

/-- C7 as amended.  Every QuizQuestion ever created has exactly 4 options with
`correct_answer` among them; the fallback bank's questions moreover have
pairwise-distinct options, but questions from the AI generation path are not
checked for duplicates. -/
theorem quiz_question_options_invariant (topic : String) (difficulty : Int) (count : Nat)
    (attempts : List (Option (List RawQuestion))) :
    (∀ q ∈ generate_quiz_questions topic difficulty count attempts,
      q.options.length = 4 ∧ q.correct_answer ∈ q.options) ∧
    (∀ q ∈ generate_basic_questions topic difficulty count, q.options.Nodup) := by
  refine ⟨(generate_quiz_questions_props topic difficulty count attempts).2, ?_⟩
  intro q hq
  exact (basic_questions_props topic difficulty count q hq).2.1

/-! ## Claim C10: the fallback bank is answered by the first option -/

/-- C10.  Every question the static fallback bank produces — the plain ones
and the `Advanced:`-prefixed padding ones alike — has its correct answer in
first position, so always choosing the first option scores 100%. -/
theorem basic_questions_first_option_correct (topic : String) (difficulty : Int)
    (count : Nat) :
    ∀ q ∈ generate_basic_questions topic difficulty count,
      q.options.head? = some q.correct_answer := by
  intro q hq
  exact (basic_questions_props topic difficulty count q hq).2.2

/-- C10 witness: the first fallback question for algebra, concretely. -/
theorem basic_questions_first_option_correct_witness :
    (plainQuestion "algebra" 2 ("What is a variable in algebra?",
        ["A letter representing an unknown", "A constant number", "An operation", "A graph"]))
      ∈ generate_basic_questions "algebra" 2 6 ∧
    (plainQuestion "algebra" 2 ("What is a variable in algebra?",
        ["A letter representing an unknown", "A constant number", "An operation", "A graph"])).options.head?
      = some (plainQuestion "algebra" 2 ("What is a variable in algebra?",
        ["A letter representing an unknown", "A constant number", "An operation", "A graph"])).correct_answer :=
  ⟨by decide, basic_questions_first_option_correct "algebra" 2 6 _ (by decide)⟩

/-! ## Claim C2: quiz submission and path advancement -/

/-- Lookup after the overwrite branch of the progress update. -/
theorem lookup_map_overwrite (k : String) (v : OverallFeedback) :
    ∀ m : List (String × OverallFeedback), m.any (fun p => p.1 == k) = true →
      (m.map (fun p => if p.1 == k then (k, v) else p)).lookup k = some v := by
  intro m
  induction m with
  | nil => intro h; simp at h
  | cons p ps ih =>
    intro hany
    by_cases hp : p.1 = k
    · have hp' : (p.1 == k) = true := beq_iff_eq.mpr hp
      simp only [List.map_cons, hp', if_true]
      rw [List.lookup]
      simp
    · have hp' : (p.1 == k) = false := beq_eq_false_iff_ne.mpr hp
      have hk : (k == p.1) = false := beq_eq_false_iff_ne.mpr (fun he => hp he.symm)
      simp only [List.map_cons, hp', Bool.false_eq_true, if_false]
      rw [List.lookup]
      simp only [hk]
      apply ih
      simpa [List.any_cons, hp'] using hany

/-- Lookup after the append branch of the progress update. -/
theorem lookup_append_new (k : String) (v : OverallFeedback) :
    ∀ m : List (String × OverallFeedback), (∀ p ∈ m, (p.1 == k) = false) →
      (m ++ [(k, v)]).lookup k = some v := by
  intro m
  induction m with
  | nil =>
    intro _
    rw [List.nil_append, List.lookup]
    simp
  | cons p ps ih =>
    intro h
    have hp : (p.1 == k) = false := h p (List.mem_cons_self p ps)
    have hk : (k == p.1) = false := by
      rw [beq_eq_false_iff_ne] at hp ⊢
      exact fun he => hp he.symm
    rw [List.cons_append, List.lookup]
    simp only [hk]
    exact ih (fun x hx => h x (List.mem_cons_of_mem p hx))

/-- The progress map update always exposes the new feedback under the written
key. -/
theorem setProgressKey_lookup (m : List (String × OverallFeedback)) (k : String)
    (v : OverallFeedback) : (setProgressKey m k v).lookup k = some v := by
  unfold setProgressKey
  by_cases hany : m.any (fun p => p.1 == k) = true
  · rw [if_pos hany]
    exact lookup_map_overwrite k v m hany
  · rw [if_neg hany]
    rw [Bool.not_eq_true, List.any_eq_false] at hany
    exact lookup_append_new k v m (fun p hp => by simpa using hany p hp)

/-- C2.  On quiz submission, an aggregate `average_score` of at least 60 moves
`current_position` to `min(current_position + 1, len(resources))` and records
the feedback under `progress[resource_id]`; a score below 60 (e.g. 59) leaves
the whole path document unchanged; and a position within bounds stays within
bounds. -/
theorem submit_quiz_advancement (path : LearningPathDoc) (fb : OverallFeedback)
    (resource_id : String) :
    ((60 : ℚ) ≤ fb.average_score →
      (submit_quiz_advance path fb resource_id).current_position =
        min (path.current_position + 1) path.resources.length ∧
      (submit_quiz_advance path fb resource_id).progress.lookup resource_id = some fb) ∧
    (fb.average_score < 60 → submit_quiz_advance path fb resource_id = path) ∧
    (path.current_position ≤ path.resources.length →
      (submit_quiz_advance path fb resource_id).current_position ≤ path.resources.length) := by
  have hpos : (60 : ℚ) ≤ fb.average_score →
      submit_quiz_advance path fb resource_id =
        { resources := path.resources,
          current_position := min (path.current_position + 1) path.resources.length,
          progress := setProgressKey path.progress resource_id fb } := by
    intro h
    unfold submit_quiz_advance
    rw [if_pos h]
  have hneg : ¬ (60 : ℚ) ≤ fb.average_score →
      submit_quiz_advance path fb resource_id = path := by
    intro h
    unfold submit_quiz_advance
    rw [if_neg h]
  refine ⟨?_, ?_, ?_⟩
  · intro h
    rw [hpos h]
    exact ⟨rfl, setProgressKey_lookup path.progress resource_id fb⟩
  · intro h
    exact hneg (not_le.mpr h)
  · intro h
    by_cases hs : (60 : ℚ) ≤ fb.average_score
    · rw [hpos hs]
      exact min_le_right _ _
    · rw [hneg hs]
      exact h

/-! ## Claim C4: aggregate feedback -/

/-- The nonempty-results facts of `generate_overall_feedback` (helper for C4). -/
theorem overall_feedback_nonempty_props (results : List QuizResult) (resp : Option String)
    (h : results ≠ []) :
    (generate_overall_feedback results resp).average_score =
      (results.map (fun r => r.score)).sum / (results.length : ℚ) ∧
    (generate_overall_feedback results resp).total_questions = results.length ∧
    (generate_overall_feedback results resp).correct_answers =
      (results.filter (fun r => r.is_correct)).length ∧
    (∀ t, t ∈ (generate_overall_feedback results resp).weak_topics ↔
      ∃ r ∈ results, r.is_correct = false ∧ r.topic = t) ∧
    (∀ t, t ∈ (generate_overall_feedback results resp).strong_topics ↔
      ∃ r ∈ results, r.is_correct = true ∧ r.topic = t) := by
  have hne : results.isEmpty = false := by simpa [List.isEmpty_iff] using h
  refine ⟨?_, ?_, ?_, ?_, ?_⟩
  · simp [generate_overall_feedback, hne]
  · simp [generate_overall_feedback, hne]
  · simp [generate_overall_feedback, hne, List.length_map]
  · intro t
    simp only [generate_overall_feedback, hne, Bool.false_eq_true, if_false,
      List.mem_dedup, List.mem_map, List.mem_filter, Bool.not_eq_true']
    constructor
    · rintro ⟨r, ⟨hr, hc⟩, rfl⟩
      exact ⟨r, hr, hc, rfl⟩
    · rintro ⟨r, hr, hc, rfl⟩
      exact ⟨r, ⟨hr, hc⟩, rfl⟩
  · intro t
    simp only [generate_overall_feedback, hne, Bool.false_eq_true, if_false,
      List.mem_dedup, List.mem_map, List.mem_filter]
    constructor
    · rintro ⟨r, ⟨hr, hc⟩, rfl⟩
      exact ⟨r, hr, hc, rfl⟩
    · rintro ⟨r, hr, hc, rfl⟩
      exact ⟨r, ⟨hr, hc⟩, rfl⟩

/-- C4.  For nonempty results the aggregate feedback carries the arithmetic
mean of the scores, the count of correct results, and (as sets) the topics of
the incorrect respectively correct results; the empty list yields the
zero-score sentinel record.  In particular the 5-question geometry pretest
with 3 wrong answers yields `average_score` 40 with geometry among the weak
topics. -/
theorem overall_feedback_aggregation (results : List QuizResult) (resp : Option String) :
    (results = [] → generate_overall_feedback results resp =
      { average_score := 0, total_questions := 0, correct_answers := 0, weak_topics := [],
        strong_topics := [], recommendation := "No quiz data available" }) ∧
    (results ≠ [] →
      (generate_overall_feedback results resp).average_score =
        (results.map (fun r => r.score)).sum / (results.length : ℚ) ∧
      (generate_overall_feedback results resp).total_questions = results.length ∧
      (generate_overall_feedback results resp).correct_answers =
        (results.filter (fun r => r.is_correct)).length ∧
      (∀ t, t ∈ (generate_overall_feedback results resp).weak_topics ↔
        ∃ r ∈ results, r.is_correct = false ∧ r.topic = t) ∧
      (∀ t, t ∈ (generate_overall_feedback results resp).strong_topics ↔
        ∃ r ∈ results, r.is_correct = true ∧ r.topic = t)) ∧
    ((generate_overall_feedback pretestExample Option.none).average_score = 40 ∧
      "geometry" ∈ (generate_overall_feedback pretestExample Option.none).weak_topics) := by
  refine ⟨?_, overall_feedback_nonempty_props results resp, ?_, ?_⟩
  · intro h
    subst h
    rfl
  · have h1 := (overall_feedback_nonempty_props pretestExample Option.none (by simp [pretestExample])).1
    rw [h1]
    norm_num [pretestExample]
  · have h4 := (overall_feedback_nonempty_props pretestExample Option.none
      (by simp [pretestExample])).2.2.2.1 "geometry"
    rw [h4]
    refine ⟨{ is_correct := false, feedback := "", topic := "geometry", score := 0 }, ?_, rfl, rfl⟩
    simp [pretestExample]
/-! ## Claim C5: weak-area-first topic sequencing -/

/-- Membership in the inner prioritization fold. -/
theorem addMatchingTopics_mem (w : String) (base_topics : List String) :
    ∀ (acc : List String) (t : String),
      t ∈ addMatchingTopics w base_topics acc ↔
        t ∈ acc ∨ (t ∈ base_topics ∧ weakMatches w t = true) := by
  unfold addMatchingTopics
  induction base_topics with
  | nil => intro acc t; simp
  | cons b bs ih =>
    intro acc t
    rw [List.foldl_cons]
    by_cases hcond : (weakMatches w b && !acc.contains b) = true
    · rw [hcond]
      simp only [if_true]
      rw [ih]
      have hb : weakMatches w b = true ∧ (!acc.contains b) = true := by simpa using hcond
      simp only [List.mem_append, List.mem_singleton, List.mem_cons, List.not_mem_nil,
        or_false]
      constructor
      · rintro ((h | rfl) | ⟨hmem, hm⟩)
        · exact Or.inl h
        · exact Or.inr ⟨Or.inl rfl, hb.1⟩
        · exact Or.inr ⟨Or.inr hmem, hm⟩
      · rintro (h | ⟨(rfl | hmem), hm⟩)
        · exact Or.inl (Or.inl h)
        · exact Or.inl (Or.inr rfl)
        · exact Or.inr ⟨hmem, hm⟩
    · rw [Bool.not_eq_true] at hcond
      rw [hcond]
      simp only [Bool.false_eq_true, if_false]
      rw [ih]
      simp only [List.mem_cons]
      rw [Bool.and_eq_false_iff] at hcond
      constructor
      · rintro (h | ⟨hmem, hm⟩)
        · exact Or.inl h
        · exact Or.inr ⟨Or.inr hmem, hm⟩
      · rintro (h | ⟨(rfl | hmem), hm⟩)
        · exact Or.inl h
        · rcases hcond with hc | hc
          · rw [hm] at hc; simp at hc
          · have hc2 : acc.contains t = true := by simpa using hc
            exact Or.inl (List.mem_of_elem_eq_true hc2)
        · exact Or.inr ⟨hmem, hm⟩

/-- Membership in the folded prioritization phase over any accumulator. -/
theorem prioritizedPhase_mem_aux (base_topics : List String) :
    ∀ (weak_areas acc : List String) (t : String),
      t ∈ weak_areas.foldl (fun acc w => addMatchingTopics w base_topics acc) acc ↔
        t ∈ acc ∨ (t ∈ base_topics ∧ ∃ w ∈ weak_areas, weakMatches w t = true) := by
  intro weak_areas
  induction weak_areas with
  | nil => intro acc t; simp
  | cons w ws ih =>
    intro acc t
    rw [List.foldl_cons, ih, addMatchingTopics_mem]
    rw [List.exists_mem_cons_iff]
    tauto

/-- Membership in the prioritization phase: exactly the base topics some
declared weak area matches. -/
theorem prioritizedPhase_mem (weak_areas base_topics : List String) (t : String) :
    t ∈ prioritizedPhase weak_areas base_topics ↔
      t ∈ base_topics ∧ matchesAnyWeak weak_areas t = true := by
  unfold prioritizedPhase matchesAnyWeak
  rw [prioritizedPhase_mem_aux]
  rw [List.any_eq_true]
  simp

/-- The inner prioritization fold keeps the accumulator duplicate-free. -/
theorem addMatchingTopics_nodup (w : String) (base_topics : List String) :
    ∀ acc : List String, acc.Nodup → (addMatchingTopics w base_topics acc).Nodup := by
  unfold addMatchingTopics
  induction base_topics with
  | nil => intro acc h; exact h
  | cons b bs ih =>
    intro acc h
    rw [List.foldl_cons]
    apply ih
    by_cases hcond : (weakMatches w b && !acc.contains b) = true
    · rw [hcond]
      simp only [if_true]
      have hb : b ∉ acc := by
        intro hmem
        have h2 : (!acc.contains b) = true := by
          have := (by simpa using hcond : weakMatches w b = true ∧ (!acc.contains b) = true)
          exact this.2
        have h3 : acc.contains b = true := List.elem_eq_true_of_mem hmem
        rw [h3] at h2
        simp at h2
      simp [List.nodup_append, h, hb]
    · rw [Bool.not_eq_true] at hcond
      rw [hcond]
      simpa using h

/-- The prioritization phase is duplicate-free. -/
theorem prioritizedPhase_nodup (weak_areas base_topics : List String) :
    (prioritizedPhase weak_areas base_topics).Nodup := by
  unfold prioritizedPhase
  have haux : ∀ (ws acc : List String), acc.Nodup →
      (ws.foldl (fun acc w => addMatchingTopics w base_topics acc) acc).Nodup := by
    intro ws
    induction ws with
    | nil => intro acc h; exact h
    | cons w ws ih =>
      intro acc h
      rw [List.foldl_cons]
      exact ih _ (addMatchingTopics_nodup w base_topics acc h)
  exact haux weak_areas [] List.nodup_nil

/-- Appending one fresh element does not change containment of other
elements. -/
theorem contains_append_single (acc : List String) (b t : String) (h : t ≠ b) :
    (acc ++ [b]).contains t = acc.contains t := by
  by_cases hmem : t ∈ acc
  · have h1 : acc.contains t = true := List.elem_eq_true_of_mem hmem
    have h2 : (acc ++ [b]).contains t = true :=
      List.elem_eq_true_of_mem (List.mem_append_left _ hmem)
    rw [h1, h2]
  · have h1 : t ∉ acc ++ [b] := by
      intro hx
      rcases List.mem_append.mp hx with hx | hx
      · exact hmem hx
      · exact h (List.mem_singleton.mp hx)
    cases hc : (acc ++ [b]).contains t with
    | false =>
      cases hc2 : acc.contains t with
      | false => rfl
      | true => exact absurd (List.mem_of_elem_eq_true hc2) hmem
    | true => exact absurd (List.mem_of_elem_eq_true hc) h1

/-- The second phase appends, in canonical order, exactly the base topics the
accumulator does not hold yet (for a duplicate-free base). -/
theorem addRemainingTopics_eq (base_topics : List String) (hb : base_topics.Nodup) :
    ∀ acc : List String,
      addRemainingTopics base_topics acc =
        acc ++ base_topics.filter (fun t => !acc.contains t) := by
  unfold addRemainingTopics
  induction base_topics with
  | nil => intro acc; simp
  | cons b bs ih =>
    intro acc
    rcases List.nodup_cons.mp hb with ⟨hbnotin, hbs⟩
    rw [List.foldl_cons]
    by_cases hc : acc.contains b = true
    · rw [hc]
      simp only [Bool.not_true, Bool.false_eq_true, if_false]
      rw [ih hbs acc, List.filter_cons]
      rw [show (!acc.contains b) = false by rw [hc]; rfl]
      simp
    · rw [Bool.not_eq_true] at hc
      rw [hc]
      simp only [Bool.not_false, if_true]
      rw [ih hbs (acc ++ [b]), List.filter_cons]
      rw [show (!acc.contains b) = true by rw [hc]; rfl]
      simp only [if_true, List.append_assoc, List.singleton_append]
      congr 1
      congr 1
      apply List.filter_congr
      intro t ht
      have hne : t ≠ b := fun he => hbnotin (he ▸ ht)
      rw [contains_append_single acc b t hne]

/-- The per-subject canonical list is always one of the four authored lists. -/
theorem baseTopicsFor_cases (subject : String) :
    baseTopicsFor subject = algebraTopics ∨ baseTopicsFor subject = geometryTopics ∨
    baseTopicsFor subject = trigonometryTopics ∨ baseTopicsFor subject = calculusTopics := by
  unfold baseTopicsFor
  cases h : topicSequences.lookup (pyToLower subject) with
  | none => simp
  | some v =>
    have hv := lookup_mem_values _ _ _ h
    simp only [topicSequences, List.map_cons, List.map_nil, List.mem_cons,
      List.not_mem_nil, or_false] at hv
    simp only [Option.getD_some]
    rcases hv with rfl | rfl | rfl | rfl <;> simp

/-- Every canonical list has 5 duplicate-free topics. -/
theorem baseTopicsFor_shape (subject : String) :
    (baseTopicsFor subject).Nodup ∧ (baseTopicsFor subject).length = 5 := by
  rcases baseTopicsFor_cases subject with h | h | h | h <;> rw [h] <;> exact ⟨by decide, by decide⟩

/-- The weak-area-prioritized sequence is the prioritized phase followed by
exactly the unmatched canonical topics, in canonical order. -/
theorem get_quick_topics_decomposition (subject : String) (weak_areas : List String) :
    get_quick_topics subject weak_areas =
      prioritizedPhase weak_areas (baseTopicsFor subject) ++
        (baseTopicsFor subject).filter (fun t => !matchesAnyWeak weak_areas t) := by
  rcases baseTopicsFor_shape subject with ⟨hnd, hlen⟩
  by_cases hw : weak_areas.isEmpty = true
  · have hwnil : weak_areas = [] := List.isEmpty_iff.mp hw
    subst hwnil
    unfold get_quick_topics
    rw [if_pos (show ([] : List String).isEmpty = true from rfl)]
    have hP : prioritizedPhase [] (baseTopicsFor subject) = [] := rfl
    rw [hP, List.nil_append]
    have hf : (baseTopicsFor subject).filter (fun t => !matchesAnyWeak [] t) =
        baseTopicsFor subject := by
      apply List.filter_eq_self.mpr
      intro a _
      rfl
    rw [hf]
    exact List.take_of_length_le (le_of_eq hlen)
  · unfold get_quick_topics
    rw [if_neg hw]
    set P := prioritizedPhase weak_areas (baseTopicsFor subject) with hPdef
    have hPsub : ∀ t ∈ P, t ∈ baseTopicsFor subject := by
      intro t ht
      exact ((prioritizedPhase_mem weak_areas (baseTopicsFor subject) t).mp ht).1
    have hPnd : P.Nodup := prioritizedPhase_nodup weak_areas (baseTopicsFor subject)
    rw [addRemainingTopics_eq (baseTopicsFor subject) hnd P]
    have hfilter : (baseTopicsFor subject).filter (fun t => !P.contains t) =
        (baseTopicsFor subject).filter (fun t => !matchesAnyWeak weak_areas t) := by
      apply List.filter_congr
      intro t ht
      cases hm : matchesAnyWeak weak_areas t with
      | true =>
        have hmem : t ∈ P :=
          (prioritizedPhase_mem weak_areas (baseTopicsFor subject) t).mpr ⟨ht, hm⟩
        have h2 : P.contains t = true := List.elem_eq_true_of_mem hmem
        rw [h2]
      | false =>
        have hnot : t ∉ P := by
          intro hP
          have h3 := ((prioritizedPhase_mem weak_areas (baseTopicsFor subject) t).mp hP).2
          rw [hm] at h3
          exact Bool.false_ne_true h3
        cases hc : P.contains t with
        | false => rfl
        | true => exact absurd (List.mem_of_elem_eq_true hc) hnot
    rw [hfilter]
    set L := P ++ (baseTopicsFor subject).filter (fun t => !matchesAnyWeak weak_areas t)
      with hLdef
    have hLnd : L.Nodup := by
      rw [hLdef, List.nodup_append]
      refine ⟨hPnd, List.Nodup.filter _ hnd, ?_⟩
      intro t htP htF
      have hmt := ((prioritizedPhase_mem weak_areas (baseTopicsFor subject) t).mp htP).2
      have := List.of_mem_filter htF
      rw [hmt] at this
      simp at this
    have hLmem : ∀ t, t ∈ L ↔ t ∈ baseTopicsFor subject := by
      intro t
      rw [hLdef, List.mem_append, List.mem_filter, prioritizedPhase_mem]
      constructor
      · rintro (⟨ht, _⟩ | ⟨ht, _⟩) <;> exact ht
      · intro ht
        cases hm : matchesAnyWeak weak_areas t with
        | true => exact Or.inl ⟨ht, rfl⟩
        | false => exact Or.inr ⟨ht, rfl⟩
    have hperm : L.Perm (baseTopicsFor subject) := by
      apply List.perm_of_nodup_nodup_toFinset_eq hLnd hnd
      ext t
      simp only [List.mem_toFinset]
      exact hLmem t
    have hLlen : L.length = 5 := by rw [hperm.length_eq, hlen]
    exact List.take_of_length_le (le_of_eq hLlen)

/-- C5.  Topic sequencing puts weak-area topics first: the sequence is some
prefix holding exactly the canonical topics that case-insensitively contain a
declared weak area, followed by the remaining canonical topics in canonical
order; an unknown subject uses the algebra list; and the algebra learner with
weak area "linear equations" sees "Linear Equations" first. -/
theorem topic_sequencing_weak_first (subject : String) (weak_areas : List String) :
    (topicSequences.lookup (pyToLower subject) = none →
      baseTopicsFor subject = algebraTopics) ∧
    (∃ P, get_quick_topics subject weak_areas =
        P ++ (baseTopicsFor subject).filter (fun t => !matchesAnyWeak weak_areas t) ∧
      (∀ t ∈ P, t ∈ baseTopicsFor subject ∧ matchesAnyWeak weak_areas t = true) ∧
      (∀ t ∈ baseTopicsFor subject, matchesAnyWeak weak_areas t = true → t ∈ P)) ∧
    (get_fallback_topics subject weak_areas = get_quick_topics subject weak_areas) ∧
    ((get_quick_topics "algebra" ["linear equations"]).head? = some "Linear Equations" ∧
      weakMatches "linear equations" "Linear Equations" = true) := by
  refine ⟨?_, ?_, rfl, by decide, by decide⟩
  · intro h
    unfold baseTopicsFor
    rw [h]
    rfl
  · refine ⟨prioritizedPhase weak_areas (baseTopicsFor subject),
      get_quick_topics_decomposition subject weak_areas, ?_, ?_⟩
    · intro t ht
      exact (prioritizedPhase_mem weak_areas (baseTopicsFor subject) t).mp ht
    · intro t ht hm
      exact (prioritizedPhase_mem weak_areas (baseTopicsFor subject) t).mpr ⟨ht, hm⟩
/-! ## Claim C6: the learning sequence's difficulty and type schedule -/

/-- Elementwise characterization of a successful `Option`-valued `mapM`. -/
theorem mapM_option_some {α β : Type} (f : α → Option β) :
    ∀ (l : List α) (L : List β), l.mapM f = some L →
      L.length = l.length ∧
      ∀ i (hi : i < l.length) (hL : i < L.length), f (l.get ⟨i, hi⟩) = some (L.get ⟨i, hL⟩) := by
  intro l
  induction l with
  | nil =>
    intro L h
    simp only [List.mapM_nil, pure, Option.some.injEq] at h
    subst h
    exact ⟨rfl, fun i hi => by simp at hi⟩
  | cons a l ih =>
    intro L h
    rw [List.mapM_cons] at h
    cases ha : f a with
    | none => rw [ha] at h; simp at h
    | some b =>
      rw [ha] at h
      cases hl : l.mapM f with
      | none => rw [hl] at h; simp at h
      | some bs =>
        rw [hl] at h
        simp only [Option.bind_eq_bind, Option.some_bind, pure, Option.some.injEq] at h
        subst h
        rcases ih bs hl with ⟨hlen, hidx⟩
        refine ⟨by simp [hlen], ?_⟩
        intro i hi hL
        cases i with
        | zero => simpa using ha
        | succ n =>
          simp only [List.get_cons_succ]
          exact hidx n (by simpa using hi) (by simpa using hL)

/-- Whatever `_generate_single_content` returns carries the requested
difficulty, resource type, topic and learning style (both on the parsed path
and on the fallback path). -/
theorem generate_single_content_fields (topic resource_type : String) (difficulty : Int)
    (learning_style : String) (pos total : Nat) (oracle : Option ParsedContent)
    (c : LearningContent)
    (h : generate_single_content topic resource_type difficulty learning_style pos total
      oracle = some c) :
    c.difficulty_level = difficulty ∧ c.type = resource_type ∧ c.topic = topic ∧
    c.learning_style = learning_style := by
  unfold generate_single_content at h
  cases oracle with
  | some pc =>
    simp only [Option.some.injEq] at h
    subst h
    exact ⟨rfl, rfl, rfl, rfl⟩
  | none =>
    unfold generate_fallback_content_lcg at h
    rcases Option.map_eq_some'.mp h with ⟨fw, _, hc⟩
    subst hc
    exact ⟨rfl, rfl, rfl, rfl⟩

/-- C6 counterexample.  A whitespace-only topic whose generation falls back
makes `topic.lower().split()[0]` raise `IndexError`, so
`generate_learning_sequence` raises instead of producing exactly
`num_resources` resources. -/
theorem generate_learning_sequence_cex :
    generate_learning_sequence
      { id := "L1", name := "Dana", learning_style := "visual", knowledge_level := 1,
        subject := "algebra", weak_areas := [] } " " 1 (fun _ => none) = none := by
  decide

/-- C6 as amended.  Whenever `generate_learning_sequence` completes (which it
always does unless the topic is wordless and generation falls back), it yields
exactly `num_resources` resources, the resource at 0-based position `i` has
difficulty `min 5 (knowledge_level + i / 2)` — hence difficulty is
non-decreasing — and its type cycles through the style's preferred type
list. -/
theorem generate_learning_sequence_schedule (profile : LearnerProfile) (topic : String)
    (num_resources : Nat) (oracle : Nat → Option ParsedContent) (L : List LearningContent)
    (h : generate_learning_sequence profile topic num_resources oracle = some L) :
    L.length = num_resources ∧
    (∀ i (hi : i < L.length),
      (L.get ⟨i, hi⟩).difficulty_level =
        min 5 (profile.knowledge_level + ((i / 2 : Nat) : Int)) ∧
      (L.get ⟨i, hi⟩).type = (lcgResourceTypesForStyle profile.learning_style).getD
        (i % (lcgResourceTypesForStyle profile.learning_style).length) "") ∧
    (∀ i j (hi : i < L.length) (hj : j < L.length), i ≤ j →
      (L.get ⟨i, hi⟩).difficulty_level ≤ (L.get ⟨j, hj⟩).difficulty_level) := by
  unfold generate_learning_sequence at h
  rcases mapM_option_some _ _ _ h with ⟨hlen, hidx⟩
  rw [List.length_range] at hlen
  have hfield : ∀ i (hi : i < L.length),
      (L.get ⟨i, hi⟩).difficulty_level =
        min 5 (profile.knowledge_level + ((i / 2 : Nat) : Int)) ∧
      (L.get ⟨i, hi⟩).type = (lcgResourceTypesForStyle profile.learning_style).getD
        (i % (lcgResourceTypesForStyle profile.learning_style).length) "" := by
    intro i hi
    have hi' : i < num_resources := by rw [← hlen]; exact hi
    have hr : i < (List.range num_resources).length := by simpa using hi'
    have hg := hidx i hr hi
    rw [List.get_range] at hg
    have := generate_single_content_fields _ _ _ _ _ _ _ _ hg
    exact ⟨this.1, this.2.1⟩
  refine ⟨hlen, hfield, ?_⟩
  intro i j hi hj hij
  rw [(hfield i hi).1, (hfield j hj).1]
  apply min_le_min le_rfl
  apply add_le_add_left
  exact_mod_cast Nat.div_le_div_right hij

/-- C6 witness. -/
theorem generate_learning_sequence_schedule_witness :
    ∃ L, generate_learning_sequence wSeqProfile "algebra" 3 (fun _ => some emptyParsed) =
        some L ∧ L.length = 3 := by
  have h : generate_learning_sequence wSeqProfile "algebra" 3 (fun _ => some emptyParsed) =
      some [{ id := "", title := "algebra - Part 1", type := "infographic_lesson", content := "", summary := "", difficulty_level := 1, learning_style := "visual", topic := "algebra", estimated_duration := 15, prerequisites := [], learning_objectives := [] },
            { id := "", title := "algebra - Part 2", type := "diagram_tutorial", content := "", summary := "", difficulty_level := 1, learning_style := "visual", topic := "algebra", estimated_duration := 15, prerequisites := [], learning_objectives := [] },
            { id := "", title := "algebra - Part 3", type := "visual_guide", content := "", summary := "", difficulty_level := 2, learning_style := "visual", topic := "algebra", estimated_duration := 15, prerequisites := [], learning_objectives := [] }] := by decide
  exact ⟨_, h, (generate_learning_sequence_schedule wSeqProfile "algebra" 3 _ _ h).1⟩

/-! ## Claim C8: the fallback content banks -/

/-- The substring test is sound for explicit decompositions. -/
theorem charsPrefix_iff (l₁ l₂ : List Char) : charsPrefix l₁ l₂ = true ↔ l₁ <+: l₂ := by
  induction l₁ generalizing l₂ with
  | nil => simp [charsPrefix]
  | cons a as ih =>
    cases l₂ with
    | nil => simp [charsPrefix]
    | cons b bs =>
      simp only [charsPrefix, Bool.and_eq_true, beq_iff_eq, ih, List.cons_prefix_cons]

/-- `charsInfix` decides list-infix occurrence. -/
theorem charsInfix_iff (l₁ l₂ : List Char) : charsInfix l₁ l₂ = true ↔ l₁ <:+: l₂ := by
  induction l₂ with
  | nil => simp [charsInfix, List.isEmpty_iff, List.infix_nil]
  | cons b bs ih =>
    simp only [charsInfix, Bool.or_eq_true, ih, charsPrefix_iff]
    constructor
    · rintro (h | h)
      · exact h.isInfix
      · exact List.infix_cons h
    · rintro ⟨s, t, hst⟩
      cases s with
      | nil => left; exact ⟨t, by simpa using hst⟩
      | cons x xs =>
        right
        refine ⟨xs, t, ?_⟩
        have h2 := hst
        simp only [List.cons_append, List.cons.injEq] at h2
        exact h2.2

/-- Python's `needle in hay` holds whenever the needle's characters occur as
an infix of the hay's. -/
theorem pyInStr_of_infix (needle hay : String) (h : needle.data <:+: hay.data) :
    pyInStr needle hay = true := by
  unfold pyInStr
  exact (charsInfix_iff _ _).mpr h

set_option maxRecDepth 20000 in
/-- C8 counterexample.  For the topic "Quantum Physics" — which has no bank
entry — the Content Synthesizer's fallback returns the algebra bank's tier-1
lesson: its title is "Introduction to Algebraic Variables", and neither title
nor content mentions the requested topic. -/
theorem content_fallback_unknown_topic_cex :
    (generate_fallback_content_lcg "Quantum Physics" "lesson" 1 "visual" 1).map
      (fun c => (c.title, pyInStr "quantum" (pyToLower c.title),
        pyInStr "quantum" (pyToLower c.content))) =
    some ("Introduction to Algebraic Variables", false, false) := by
  decide

/-- C8 as amended.  The Content Synthesizer's fallback keys its bank by the
first word of the lowercased topic and the difficulty tier, and a topic with
no bank entry receives the algebra bank's content for that tier — a title from
the algebra bank, not a stub naming the topic.  Only the Path Planner's
separate fallback returns, when no key fuzzy-matches the topic, a stub whose
title and content name the requested topic. -/
theorem content_fallback_bank_spec (topic resource_type : String) (difficulty : Int)
    (learning_style : String) (pos : Nat) :
    (∀ fw, (pySplitWords (pyToLower topic)).head? = some fw →
      (lcgContentTemplatesFor learning_style).lookup fw = none →
      ∃ c, generate_fallback_content_lcg topic resource_type difficulty learning_style pos =
          some c ∧
        c.title = (lcgLookupTier (lcgAlgebraTemplates learning_style) difficulty).title ∧
        c.title ∈ (lcgAlgebraTemplates learning_style).map (fun e => e.2.title)) ∧
    (pgFindTemplates learning_style (pyToLower topic) = none →
      (generate_fallback_content_pg topic resource_type difficulty learning_style pos).title =
        "Learning " ++ topic ∧
      pyInStr topic
        (generate_fallback_content_pg topic resource_type difficulty learning_style pos).content
        = true) := by
  constructor
  · intro fw hfw hnone
    unfold generate_fallback_content_lcg
    rw [hfw]
    simp only [Option.map_some']
    refine ⟨_, rfl, ?_, ?_⟩
    · simp only [hnone, Option.getD_none]
    · have hmem : lcgLookupTier (lcgAlgebraTemplates learning_style) difficulty ∈
          (lcgAlgebraTemplates learning_style).map Prod.snd := by
        unfold lcgLookupTier
        cases hd : (lcgAlgebraTemplates learning_style).lookup difficulty with
        | some t => exact lookup_mem_values _ _ _ hd
        | none =>
          cases h1 : (lcgAlgebraTemplates learning_style).lookup 1 with
          | some t =>
            simp only [Option.getD_some]
            exact lookup_mem_values _ _ _ h1
          | none =>
            have : ((lcgAlgebraTemplates learning_style).lookup 1).isSome = true := rfl
            rw [h1] at this
            simp at this
      simp only [hnone, Option.getD_none]
      rw [show (fun e : Int × ContentTemplate => e.2.title) =
        (fun t : ContentTemplate => t.title) ∘ Prod.snd from rfl, ← List.map_map]
      exact List.mem_map_of_mem _ hmem
  · intro h
    constructor
    · simp only [generate_fallback_content_pg, h]
    · simp only [generate_fallback_content_pg, h]
      apply pyInStr_of_infix
      refine ⟨"This lesson covers the fundamentals of ".data,
        (". Content is tailored for ".data ++ learning_style.data ++ " learners.".data), ?_⟩
      simp [String.data_append]

/-! ## Claim C3: background materialization drives resources to ready -/

/-- Updating the first match with an id-preserving rewrite leaves every other
first-match lookup unchanged. -/
theorem findOne_updateFirst_ne (f : ResourceDoc → ResourceDoc)
    (hf : ∀ r, (f r).id = r.id) (rid q : String) (hq : q ≠ rid) :
    ∀ store : List ResourceDoc,
      findOne (updateFirst store rid f) q = findOne store q := by
  intro store
  induction store with
  | nil => rfl
  | cons r rs ih =>
    rw [updateFirst]
    by_cases hr : (r.id == rid) = true
    · rw [if_pos hr]
      have hrrid : r.id = rid := beq_iff_eq.mp hr
      have hrq : (r.id == q) = false :=
        beq_eq_false_iff_ne.mpr (fun he => hq (by rw [← he, hrrid]))
      have hfq : ((f r).id == q) = false := by rw [hf r]; exact hrq
      unfold findOne
      rw [List.find?_cons, List.find?_cons]
      simp only [hrq, hfq]
    · rw [if_neg hr]
      unfold findOne
      rw [List.find?_cons, List.find?_cons]
      cases hrq : (r.id == q) with
      | true => rfl
      | false => exact ih
  
/-- Updating the first match with a ready-setting rewrite makes the updated
id's status ready, provided the id is present. -/
theorem statusOf_updateFirst_self (f : ResourceDoc → ResourceDoc)
    (hf : ∀ r, (f r).id = r.id) (hs : ∀ r, (f r).status = "ready") (rid : String) :
    ∀ store : List ResourceDoc, (findOne store rid).isSome = true →
      statusOf (updateFirst store rid f) rid = some "ready" := by
  intro store
  induction store with
  | nil => intro h; simp [findOne] at h
  | cons r rs ih =>
    intro h
    rw [updateFirst]
    by_cases hr : (r.id == rid) = true
    · rw [if_pos hr]
      have hfr : ((f r).id == rid) = true := by rw [hf r]; exact hr
      unfold statusOf findOne
      rw [List.find?_cons]
      simp only [hfr, Option.map_some']
      rw [hs r]
    · rw [if_neg hr]
      unfold statusOf findOne
      rw [List.find?_cons]
      simp only [hr]
      apply ih
      unfold findOne at h
      rw [List.find?_cons] at h
      simp only [hr] at h
      exact h

/-- The content update of the background task preserves ids and sets status
ready. -/
theorem applyContentUpdate_shape (c : LearningContent) :
    (∀ r, (applyContentUpdate c r).id = r.id) ∧
    (∀ r, (applyContentUpdate c r).status = "ready") :=
  ⟨fun _ => rfl, fun _ => rfl⟩

/-- One background step never moves a status away from what it was, except to
`ready`. -/
theorem backgroundStep_status (oracle : String → Option ParsedContent)
    (resource_ids : List String) (store store2 : List ResourceDoc) (rid : String)
    (h : backgroundStep oracle resource_ids store rid = some store2) (q : String) :
    statusOf store2 q = statusOf store q ∨ statusOf store2 q = some "ready" := by
  unfold backgroundStep at h
  cases hfind : findOne store rid with
  | none =>
    simp only [hfind, Option.some.injEq] at h
    subst h
    exact Or.inl rfl
  | some r =>
    simp only [hfind] at h
    by_cases hst : (r.status == "generating") = true
    · simp only [hst, if_true] at h
      cases hgen : generate_single_content r.topic r.type r.difficulty_level r.learning_style
          (resource_ids.indexOf rid + 1) resource_ids.length (oracle rid) with
      | none =>
        simp only [hgen] at h
        exact Option.noConfusion h
      | some c =>
        simp only [hgen, Option.some.injEq] at h
        subst h
        by_cases hq : q = rid
        · subst hq
          right
          apply statusOf_updateFirst_self _ (applyContentUpdate_shape c).1
            (applyContentUpdate_shape c).2
          rw [hfind]
          rfl
        · left
          unfold statusOf
          rw [findOne_updateFirst_ne _ (applyContentUpdate_shape c).1 _ _ hq]
    · rw [Bool.not_eq_true] at hst
      simp only [hst, Bool.false_eq_true, if_false, Option.some.injEq] at h
      subst h
      exact Or.inl rfl

/-- One background step turns the processed id from `generating` to `ready`. -/
theorem backgroundStep_ready (oracle : String → Option ParsedContent)
    (resource_ids : List String) (store store2 : List ResourceDoc) (rid : String)
    (h : backgroundStep oracle resource_ids store rid = some store2)
    (hgen : statusOf store rid = some "generating") :
    statusOf store2 rid = some "ready" := by
  unfold backgroundStep at h
  unfold statusOf at hgen
  cases hfind : findOne store rid with
  | none => rw [hfind] at hgen; simp at hgen
  | some r =>
    rw [hfind] at hgen
    simp only [hfind] at h
    simp only [Option.map_some', Option.some.injEq] at hgen
    have hst : (r.status == "generating") = true := beq_iff_eq.mpr hgen
    simp only [hst, if_true] at h
    cases hc : generate_single_content r.topic r.type r.difficulty_level r.learning_style
        (resource_ids.indexOf rid + 1) resource_ids.length (oracle rid) with
    | none =>
      simp only [hc] at h
      exact Option.noConfusion h
    | some c =>
      simp only [hc, Option.some.injEq] at h
      subst h
      apply statusOf_updateFirst_self _ (applyContentUpdate_shape c).1
        (applyContentUpdate_shape c).2
      rw [hfind]
      rfl

/-- Statuses over a completed background loop: never reverted, and every
pending processed id ends ready. -/
theorem backgroundLoop_status (oracle : String → Option ParsedContent)
    (resource_ids : List String) :
    ∀ (l : List String) (store store' : List ResourceDoc),
      backgroundLoop oracle resource_ids l store = some store' →
      (∀ q, statusOf store' q = statusOf store q ∨ statusOf store' q = some "ready") ∧
      (∀ q ∈ l, statusOf store q = some "generating" → statusOf store' q = some "ready") := by
  intro l
  induction l with
  | nil =>
    intro store store' h
    simp only [backgroundLoop, Option.some.injEq] at h
    subst h
    exact ⟨fun q => Or.inl rfl, fun q hq => by simp at hq⟩
  | cons rid rest ih =>
    intro store store' h
    rw [backgroundLoop] at h
    cases hstep : backgroundStep oracle resource_ids store rid with
    | none => rw [hstep] at h; simp at h
    | some store2 =>
      rw [hstep] at h
      rcases ih store2 store' h with ⟨ihA, ihB⟩
      have hready : ∀ q, statusOf store2 q = some "ready" →
          statusOf store' q = some "ready" := by
        intro q hq
        rcases ihA q with h1 | h1
        · rw [h1, hq]
        · exact h1
      constructor
      · intro q
        rcases ihA q with h1 | h1
        · rcases backgroundStep_status oracle resource_ids store store2 rid hstep q with
            h2 | h2
          · rw [h1, h2]; exact Or.inl rfl
          · rw [h1, h2]; exact Or.inr rfl
        · exact Or.inr h1
      · intro q hq hgen
        rcases List.mem_cons.mp hq with rfl | hq'
        · exact hready q (backgroundStep_ready oracle resource_ids store store2 q hstep hgen)
        · rcases backgroundStep_status oracle resource_ids store store2 rid hstep q with
            h2 | h2
          · exact ihB q hq' (h2 ▸ hgen)
          · exact hready q h2
/-- C3.  When the background materialization task runs to completion for a
path, every resource of the path that was `generating` ends `ready`, resources
already `ready` stay `ready`, and no status ever changes except to `ready` —
the generating→ready transition is monotonic.  (Generation failure is no
exception: the synthesizer's fallback still yields content, and the resource is
still marked ready.) -/
theorem background_generation_ready (oracle : String → Option ParsedContent)
    (resource_ids : List String) (store store' : List ResourceDoc)
    (h : background_generate_content oracle resource_ids store = some store') :
    (∀ rid, statusOf store rid = some "ready" → statusOf store' rid = some "ready") ∧
    (∀ rid ∈ resource_ids, statusOf store rid = some "generating" →
      statusOf store' rid = some "ready") ∧
    (∀ rid, statusOf store' rid = statusOf store rid ∨ statusOf store' rid = some "ready") := by
  rcases backgroundLoop_status oracle resource_ids resource_ids store store' h with ⟨hA, hB⟩
  refine ⟨?_, hB, hA⟩
  intro rid hready
  rcases hA rid with h1 | h1
  · rw [h1, hready]
  · exact h1

/-- C3 witness. -/
theorem background_generation_ready_witness :
    ∃ s', background_generate_content (fun _ => some emptyParsed) ["r1"] wStore = some s' ∧
      statusOf s' "r1" = some "ready" := by
  have h : background_generate_content (fun _ => some emptyParsed) ["r1"] wStore =
      some [{ id := "r1", title := "algebra - Part 1", type := "lesson", content := "", summary := "", difficulty_level := 1, learning_style := "visual", topic := "algebra", estimated_duration := 15, learning_objectives := [], status := "ready" }] := by
    decide
  exact ⟨_, h, (background_generation_ready _ _ _ _ h).2.1 "r1" (by decide) (by decide)⟩

/-! ## Claim C9: intake normalization -/

/-- C9 counterexample.  A float-typed `knowledge_level` (here 5/2 = 2.5) is
not coerced: the `isinstance(knowledge_level, str)` guard only converts
strings, so the value is persisted as-is and the profile does not hold an
integer. -/
theorem knowledge_level_float_passthrough_cex :
    (normalize_knowledge_level (some (PyVal.float (5 / 2)))).isIntVal = false := rfl

/-- C9 as amended.  `weak_areas` is always normalized to a list (empty on any
type mismatch), but `knowledge_level` is only coerced when it is missing
(default 1) or supplied as a string (parsed, default 1 on failure); any other
value — float, bool, None, list, dict — passes through unchanged, so the
persisted profile need not hold an integer. -/
theorem intake_normalization (kl weak : Option PyVal) :
    ((normalize_weak_areas weak).isListVal = true) ∧
    (kl = none → normalize_knowledge_level kl = PyVal.int 1) ∧
    (∀ s, kl = some (PyVal.str s) → (normalize_knowledge_level kl).isIntVal = true) ∧
    (∀ v, kl = some v → (∀ s, v ≠ PyVal.str s) → normalize_knowledge_level kl = v) := by
  refine ⟨?_, ?_, ?_, ?_⟩
  · cases weak with
    | none => rfl
    | some v => cases v <;> rfl
  · intro h
    subst h
    rfl
  · intro s h
    subst h
    cases hp : parsePyInt s with
    | some n => simp [normalize_knowledge_level, hp, PyVal.isIntVal]
    | none => simp [normalize_knowledge_level, hp, PyVal.isIntVal]
  · intro v h hne
    subst h
    cases v with
    | str s => exact absurd rfl (hne s)
    | int n => rfl
    | float q => rfl
    | boolean b => rfl
    | list xs => rfl
    | dict => rfl
    | none => rfl
